import Mathlib

/-!
Verification development for the executor registry and request-dispatch core of
`executor_service.cc` (tensorflow_federated).  The C++ methods are shallowly
embedded as pure Lean functions over an explicit registry state; mutable
members become explicit state passing, `absl::StatusOr` becomes `Except`, and
the backend `Executor` capability calls become oracle parameters.
-/

deriving instance DecidableEq for Except

namespace TFF

/-- Error classes of `absl::Status` / `grpc::Status` used by the service. -/
inductive StatusCode
  | ok
  | invalidArgument
  | notFound
  | failedPrecondition
  | internal
  | unavailable
  | unknown
deriving DecidableEq, Repr

/-- `absl::Status`: an error class together with a message. -/
structure AbslStatus where
  code : StatusCode
  message : String
deriving DecidableEq, Repr

/-- `absl::OkStatus()`. -/
def okStatus : AbslStatus := ⟨StatusCode.ok, ""⟩

/-- `grpc::Status`: wire-level status. -/
structure GrpcStatus where
  code : StatusCode
  message : String
deriving DecidableEq, Repr

/-- `grpc::Status::OK`. -/
def grpcOK : GrpcStatus := ⟨StatusCode.ok, ""⟩

/-- Modelled from the spec: `absl_to_grpc` (status_conversion, not in src)
translates an `absl::Status` into the wire-level status, preserving the error
class ("all of the above surface to the RPC caller as a translated wire-level
status"). -/
def absl_to_grpc (s : AbslStatus) : GrpcStatus := ⟨s.code, s.message⟩

/-! ### Association-list model of the registry's two hash maps -/

/-- `map.find(k)`: first binding of `k`, if any. -/
def lookupA {α : Type} (k : String) : List (String × α) → Option α
  | [] => none
  | p :: rest => if k = p.1 then some p.2 else lookupA k rest

/-- `map.insert({k, v})`: inserts only if `k` is absent (C++ map `insert`
does not overwrite an existing binding). -/
def insertA {α : Type} (k : String) (v : α) (l : List (String × α)) :
    List (String × α) :=
  match lookupA k l with
  | some _ => l
  | none => l ++ [(k, v)]

/-- In-place mutation through an iterator (`it->second = f it->second`):
updates the first binding of `k`. -/
def updateA {α : Type} (k : String) (f : α → α) :
    List (String × α) → List (String × α)
  | [] => []
  | p :: rest => if k = p.1 then (p.1, f p.2) :: rest else p :: updateA k f rest

/-- `map.erase(k)`: removes the bindings of `k`. -/
def eraseA {α : Type} (k : String) (l : List (String × α)) :
    List (String × α) :=
  l.filter (fun p => p.1 ≠ k)

/-! ### Cardinalities -/

/-- Modelled from the spec: `CardinalityMap` (cardinalities.h, not in src) is
an ordered map from placement name to participant count; its entries are
listed in key order, giving the "sorted, comma-joined name=count" canonical
form.  Insertion into a sorted list by key. -/
def insertCard (p : String × Int) : List (String × Int) → List (String × Int)
  | [] => [p]
  | q :: rest => if p.1 < q.1 then p :: q :: rest else q :: insertCard p rest

/-- Key-sorted view of a cardinality map (the iteration order of the C++ map). -/
def sortCards : List (String × Int) → List (String × Int)
  | [] => []
  | p :: rest => insertCard p (sortCards rest)

/-- `CardinalitiesToString`: `absl::StrJoin(cardinalities, ",",
PairFormatter("="))`, e.g. `"CLIENTS=4,SERVER=1"`. -/
def CardinalitiesToString (m : List (String × Int)) : String :=
  String.intercalate "," ((sortCards m).map (fun p => p.1 ++ "=" ++ toString p.2))

/-- Backend-local value identifier (`ValueId`). -/
abbrev ValueId := Nat

/-- `IdToRemoteValue`: wire encoding of a `ValueId` (`absl::StrCat(value_id)`). -/
def IdToRemoteValue (v : ValueId) : String := toString v

/-- Decimal digit value of a character, if it is one. -/
def digitVal (c : Char) : Option Nat :=
  if c.isDigit then some (c.toNat - '0'.toNat) else none

/-- Accumulating decimal parser over the characters of the reference. -/
def parseNatAux : List Char → Nat → Option Nat
  | [], acc => some acc
  | c :: cs, acc =>
      match digitVal c with
      | some d => parseNatAux cs (acc * 10 + d)
      | none => none

/-- `absl::SimpleAtoi` on a decimal reference string: succeeds exactly when
the string is a nonempty run of digits. -/
def parseValueId (s : String) : Option Nat :=
  if s.data.isEmpty then none else parseNatAux s.data 0

/-- `RemoteValueToId`: decodes a wire value reference via `absl::SimpleAtoi`;
a malformed reference yields an INVALID_ARGUMENT status. -/
def RemoteValueToId (s : String) : Except GrpcStatus ValueId :=
  match parseValueId s with
  | some v => Except.ok v
  | none =>
      Except.error ⟨StatusCode.invalidArgument,
        "Expected value ref to be an integer id, found " ++ s⟩

/-! ### The registry -/

/-- Modelled from the spec: `ExecutorEntry` (declared in executor_service.h,
not in src; fields per the spec's data model and the .cc's uses): a live
executor (an opaque backend handle here), its remote refcount, and its public
identifier. -/
structure ExecutorEntry where
  executor : Nat
  remote_refcount : Int
  executor_id : String
deriving DecidableEq, Repr

/-- Modelled from the spec: the mutable members of
`ExecutorService::ExecutorResolver` (declared in executor_service.h, not in
src): the two tables, the monotonic executor index, and the service id used
when minting public identifiers. -/
structure ResolverState where
  executors : List (String × ExecutorEntry)
  keys_to_cardinalities : List (String × String)
  executor_index : Nat
  service_id : String
deriving DecidableEq, Repr

/-- A fresh resolver: both tables empty, index 0. -/
def initState (sid : String) : ResolverState := ⟨[], [], 0, sid⟩

/-- `ExecutorRequirements`: wraps the cardinality map. -/
structure ExecutorRequirements where
  cardinalities : List (String × Int)
deriving DecidableEq, Repr

/-- `ExecutorResolver::ExecutorForRequirements`.  The executor factory is an
oracle parameter (`ex_factory_`).  Returns the result and the updated
registry state. -/
def ExecutorForRequirements
    (ex_factory : List (String × Int) → Except AbslStatus Nat)
    (requirements : ExecutorRequirements) (st : ResolverState) :
    Except AbslStatus ExecutorEntry × ResolverState :=
  let cardinalities_string := CardinalitiesToString requirements.cardinalities
  match lookupA cardinalities_string st.executors with
  | none =>
      match ex_factory requirements.cardinalities with
      | Except.error e => (Except.error e, st)
      | Except.ok new_executor =>
          let executor_key := cardinalities_string ++ "/" ++ st.service_id ++
            "/" ++ toString st.executor_index
          let entry : ExecutorEntry := ⟨new_executor, 1, executor_key⟩
          (Except.ok entry,
            { st with
              executor_index := st.executor_index + 1
              keys_to_cardinalities :=
                insertA executor_key cardinalities_string
                  st.keys_to_cardinalities
              executors := insertA cardinalities_string entry st.executors })
  | some e =>
      (Except.ok { e with remote_refcount := e.remote_refcount + 1 },
        { st with
          executors :=
            updateA cardinalities_string
              (fun en => { en with remote_refcount := en.remote_refcount + 1 })
              st.executors })

/-- `ExecutorResolver::ExecutorForId`: read-only two-step lookup; the state is
returned unchanged (the method only takes a reader lock and performs finds). -/
def ExecutorForId (ex_id method_name : String) (st : ResolverState) :
    Except AbslStatus ExecutorEntry × ResolverState :=
  match lookupA ex_id st.keys_to_cardinalities with
  | none =>
      (Except.error ⟨StatusCode.failedPrecondition,
        "Error evaluating `ExecutorService::" ++ method_name ++
          "`. No executor found for ID: '" ++ ex_id ++ "'."⟩, st)
  | some cstr =>
      match lookupA cstr st.executors with
      | none =>
          (Except.error ⟨StatusCode.internal,
            "No executor found for cardinalities string: " ++ cstr ++
              ", referred to by executor id " ++ ex_id⟩, st)
      | some e => (Except.ok e, st)

/-- `ExecutorResolver::DestroyExecutor`: unconditionally removes both table
entries for `id` if present; a no-op otherwise. -/
def DestroyExecutor (ex_id : String) (st : ResolverState) : ResolverState :=
  match lookupA ex_id st.keys_to_cardinalities with
  | some cstr =>
      { st with
        executors := eraseA cstr st.executors
        keys_to_cardinalities := eraseA ex_id st.keys_to_cardinalities }
  | none => st

/-- `ExecutorResolver::DisposeExecutor`: decrements the refcount of the entry
named by `ex_id`; success without effect on an unknown id; destroys the entry
when the decremented count reaches zero. -/
def DisposeExecutor (ex_id : String) (st : ResolverState) :
    AbslStatus × ResolverState :=
  match lookupA ex_id st.keys_to_cardinalities with
  | none => (okStatus, st)
  | some cstr =>
      match lookupA cstr st.executors with
      | none =>
          (⟨StatusCode.internal,
            "No executor found for cardinalities string: " ++ cstr ++
              ", referred to by executor id " ++ ex_id⟩, st)
      | some e =>
          let st2 :=
            { st with
              executors :=
                updateA cstr
                  (fun en =>
                    { en with remote_refcount := en.remote_refcount - 1 })
                  st.executors }
          if e.remote_refcount - 1 = 0 then (okStatus, DestroyExecutor ex_id st2)
          else (okStatus, st2)

/-! ### The RPC-facing service handlers -/

/-- `GetExecutor` builds the `CardinalityMap` by inserting each requested
`(placement uri, cardinality)` pair in order (C++ map `insert`: first binding
of a key wins). -/
def buildCardinalityMap (l : List (String × Int)) : List (String × Int) :=
  l.foldl (fun acc p => insertA p.1 p.2 acc) []

/-- Result of the `GetExecutor` handler: registry state, wire status, and the
executor id placed in the response. -/
structure GetExecutorResult where
  state : ResolverState
  status : GrpcStatus
  executorId : Option String
deriving DecidableEq, Repr

/-- `ExecutorService::GetExecutor`. -/
def GetExecutor (ex_factory : List (String × Int) → Except AbslStatus Nat)
    (reqCards : List (String × Int)) (st : ResolverState) : GetExecutorResult :=
  let cardinalities := buildCardinalityMap reqCards
  match ExecutorForRequirements ex_factory ⟨cardinalities⟩ st with
  | (Except.error e, st2) => ⟨st2, absl_to_grpc e, none⟩
  | (Except.ok entry, st2) => ⟨st2, grpcOK, some entry.executor_id⟩

/-- `ExecutorService::RequireExecutor`: resolves an executor id via
`ExecutorForId`, translating a failure to the wire status. -/
def RequireExecutor (method_name ex_id : String) (st : ResolverState) :
    Except GrpcStatus ExecutorEntry × ResolverState :=
  match ExecutorForId ex_id method_name st with
  | (Except.error e, st2) => (Except.error (absl_to_grpc e), st2)
  | (Except.ok entry, st2) => (Except.ok entry, st2)

/-- `ExecutorService::HandleNotOK`: the fault-eviction rule.  A
FAILED_PRECONDITION class error destroys the executor named in the request
before the error is translated and returned. -/
def HandleNotOK (status : AbslStatus) (ex_id : String) (st : ResolverState) :
    GrpcStatus × ResolverState :=
  if status.code = StatusCode.failedPrecondition then
    (absl_to_grpc status, DestroyExecutor ex_id st)
  else
    (absl_to_grpc status, st)

/-- Lifecycle events of an `OwnedValueId` inside one handler invocation:
production by a capability call, encoding into the wire response, explicit
release (`forget`), and disposal by the guard's destructor at scope exit. -/
inductive VEvent
  | produce (v : ValueId)
  | encode (v : ValueId)
  | release (v : ValueId)
  | guardDispose (v : ValueId)
deriving DecidableEq, Repr

/-- The `OwnedValueId` guard: the held id and whether `forget` was called. -/
structure Guard where
  value : ValueId
  released : Bool
deriving DecidableEq, Repr

/-- Scope exit of an `OwnedValueId` guard: its destructor disposes the value
against the owning executor unless `forget` was called. -/
def guardExit : Option Guard → List VEvent
  | none => []
  | some g => if g.released then [] else [VEvent.guardDispose g.value]

/-- Result of a value-producing handler: registry state, wire status, the
value reference in the response, and the `OwnedValueId` lifecycle events. -/
structure CreateResult where
  state : ResolverState
  status : GrpcStatus
  value_ref : Option String
  events : List VEvent
deriving DecidableEq, Repr

/-- `ExecutorService::CreateValue`.  The backend capability
`executor->CreateValue(request->value())` is the oracle `cap`, applied to the
resolved executor handle. -/
def CreateValue (ex_id : String) (cap : Nat → Except AbslStatus ValueId)
    (st : ResolverState) : CreateResult :=
  match RequireExecutor "CreateValue" ex_id st with
  | (Except.error g, st2) => ⟨st2, g, none, guardExit none⟩
  | (Except.ok entry, st2) =>
      match cap entry.executor with
      | Except.error e =>
          let r := HandleNotOK e ex_id st2
          ⟨r.2, r.1, none, guardExit none⟩
      | Except.ok v =>
          let guard : Guard := ⟨v, false⟩
          let ev1 := [VEvent.produce guard.value]
          let ref := IdToRemoteValue guard.value
          let ev2 := ev1 ++ [VEvent.encode guard.value]
          let guard2 := { guard with released := true }
          let ev3 := ev2 ++ [VEvent.release guard2.value]
          ⟨st2, grpcOK, some ref, ev3 ++ guardExit (some guard2)⟩

/-- Decoding of `CreateCall`'s optional `argument_ref`. -/
def decodeArgRef : Option String → Except GrpcStatus (Option ValueId)
  | none => Except.ok none
  | some r =>
      match RemoteValueToId r with
      | Except.error g => Except.error g
      | Except.ok v => Except.ok (some v)

/-- `ExecutorService::CreateCall`.  The capability oracle is
`executor->CreateCall(embedded_fn, embedded_arg)`. -/
def CreateCall (ex_id function_ref : String) (argument_ref : Option String)
    (cap : Nat → ValueId → Option ValueId → Except AbslStatus ValueId)
    (st : ResolverState) : CreateResult :=
  match RequireExecutor "CreateCall" ex_id st with
  | (Except.error g, st2) => ⟨st2, g, none, guardExit none⟩
  | (Except.ok entry, st2) =>
      match RemoteValueToId function_ref with
      | Except.error g => ⟨st2, g, none, guardExit none⟩
      | Except.ok embedded_fn =>
          match decodeArgRef argument_ref with
          | Except.error g => ⟨st2, g, none, guardExit none⟩
          | Except.ok embedded_arg =>
              match cap entry.executor embedded_fn embedded_arg with
              | Except.error e =>
                  let r := HandleNotOK e ex_id st2
                  ⟨r.2, r.1, none, guardExit none⟩
              | Except.ok v =>
                  let guard : Guard := ⟨v, false⟩
                  let ev1 := [VEvent.produce guard.value]
                  let ref := IdToRemoteValue guard.value
                  let ev2 := ev1 ++ [VEvent.encode guard.value]
                  let guard2 := { guard with released := true }
                  let ev3 := ev2 ++ [VEvent.release guard2.value]
                  ⟨st2, grpcOK, some ref, ev3 ++ guardExit (some guard2)⟩

/-- Decoding of `CreateStruct`'s element references (the handler's loop stops
at the first malformed element, returning its INVALID_ARGUMENT error). -/
def decodeElements : List String → Except GrpcStatus (List ValueId)
  | [] => Except.ok []
  | r :: rest =>
      match RemoteValueToId r with
      | Except.error g => Except.error g
      | Except.ok v =>
          match decodeElements rest with
          | Except.error g => Except.error g
          | Except.ok vs => Except.ok (v :: vs)

/-- `ExecutorService::CreateStruct`.  The capability oracle is
`executor->CreateStruct(requested_ids)`. -/
def CreateStruct (ex_id : String) (element_refs : List String)
    (cap : Nat → List ValueId → Except AbslStatus ValueId)
    (st : ResolverState) : CreateResult :=
  match RequireExecutor "CreateStruct" ex_id st with
  | (Except.error g, st2) => ⟨st2, g, none, guardExit none⟩
  | (Except.ok entry, st2) =>
      match decodeElements element_refs with
      | Except.error g => ⟨st2, g, none, guardExit none⟩
      | Except.ok requested_ids =>
          match cap entry.executor requested_ids with
          | Except.error e =>
              let r := HandleNotOK e ex_id st2
              ⟨r.2, r.1, none, guardExit none⟩
          | Except.ok v =>
              let guard : Guard := ⟨v, false⟩
              let ev1 := [VEvent.produce guard.value]
              let ref := IdToRemoteValue guard.value
              let ev2 := ev1 ++ [VEvent.encode guard.value]
              let guard2 := { guard with released := true }
              let ev3 := ev2 ++ [VEvent.release guard2.value]
              ⟨st2, grpcOK, some ref, ev3 ++ guardExit (some guard2)⟩

/-- `ExecutorService::CreateSelection`.  The capability oracle is
`executor->CreateSelection(selection_source, request->index())`. -/
def CreateSelection (ex_id source_ref : String) (index : Nat)
    (cap : Nat → ValueId → Nat → Except AbslStatus ValueId)
    (st : ResolverState) : CreateResult :=
  match RequireExecutor "CreateSelection" ex_id st with
  | (Except.error g, st2) => ⟨st2, g, none, guardExit none⟩
  | (Except.ok entry, st2) =>
      match RemoteValueToId source_ref with
      | Except.error g => ⟨st2, g, none, guardExit none⟩
      | Except.ok selection_source =>
          match cap entry.executor selection_source index with
          | Except.error e =>
              let r := HandleNotOK e ex_id st2
              ⟨r.2, r.1, none, guardExit none⟩
          | Except.ok v =>
              let guard : Guard := ⟨v, false⟩
              let ev1 := [VEvent.produce guard.value]
              let ref := IdToRemoteValue guard.value
              let ev2 := ev1 ++ [VEvent.encode guard.value]
              let guard2 := { guard with released := true }
              let ev3 := ev2 ++ [VEvent.release guard2.value]
              ⟨st2, grpcOK, some ref, ev3 ++ guardExit (some guard2)⟩

/-- Result of the `Compute` handler (the materialized payload written into the
response buffer is opaque to the registry protocol and elided). -/
structure ComputeResult where
  state : ResolverState
  status : GrpcStatus
deriving DecidableEq, Repr

/-- `ExecutorService::Compute`.  The capability oracle is
`executor->Materialize(requested_value, response->mutable_value())`, returning
only its status. -/
def Compute (ex_id value_ref : String) (cap : Nat → ValueId → AbslStatus)
    (st : ResolverState) : ComputeResult :=
  match RequireExecutor "Compute" ex_id st with
  | (Except.error g, st2) => ⟨st2, g⟩
  | (Except.ok entry, st2) =>
      match RemoteValueToId value_ref with
      | Except.error g => ⟨st2, g⟩
      | Except.ok requested_value =>
          let status := cap entry.executor requested_value
          if status.code = StatusCode.ok then ⟨st2, absl_to_grpc status⟩
          else
            let r := HandleNotOK status ex_id st2
            ⟨r.2, r.1⟩

/-- Result of the `Dispose` handler: state, status, and the ids actually sent
to the executor's dispose capability, in order. -/
structure DisposeResult where
  state : ResolverState
  status : GrpcStatus
  calls : List ValueId
deriving DecidableEq, Repr

/-- The loop body of `ExecutorService::Dispose`: decodes each reference,
skipping malformed ones; requests disposal for each decoded id; the first
capability failure aborts the rest and its translated error is the result. -/
def disposeLoop (cap : Nat → ValueId → AbslStatus) (ex : Nat) :
    List String → GrpcStatus × List ValueId
  | [] => (grpcOK, [])
  | r :: rest =>
      match RemoteValueToId r with
      | Except.error _ => disposeLoop cap ex rest
      | Except.ok embedded_value =>
          let s := cap ex embedded_value
          if s.code = StatusCode.ok then
            let t := disposeLoop cap ex rest
            (t.1, embedded_value :: t.2)
          else (absl_to_grpc s, [embedded_value])

/-- `ExecutorService::Dispose`.  A failed executor resolution degrades to
success; a failing dispose capability is returned translated directly (note:
not routed through `HandleNotOK`). -/
def Dispose (ex_id : String) (value_refs : List String)
    (cap : Nat → ValueId → AbslStatus) (st : ResolverState) : DisposeResult :=
  match RequireExecutor "Dispose" ex_id st with
  | (Except.error _, st2) => ⟨st2, grpcOK, []⟩
  | (Except.ok entry, st2) =>
      let t := disposeLoop cap entry.executor value_refs
      ⟨st2, t.1, t.2⟩

/-- `ExecutorService::DisposeExecutor`: delegates to the resolver. -/
def DisposeExecutorHandler (ex_id : String) (st : ResolverState) :
    GrpcStatus × ResolverState :=
  let r := DisposeExecutor ex_id st
  (absl_to_grpc r.1, r.2)

/-! ### Resolver call sequences (reachability) -/

/-- One resolver call, with the factory's answer for a `ForRequirements` call
supplied as data (so a sequence of ops models any factory behavior). -/
inductive ResolverOp
  | forRequirements (factoryResult : Except AbslStatus Nat)
      (cards : List (String × Int))
  | forId (id method : String)
  | disposeEx (id : String)
  | destroyEx (id : String)

/-- State transition of one resolver call. -/
def applyOp (st : ResolverState) : ResolverOp → ResolverState
  | ResolverOp.forRequirements fr cards =>
      (ExecutorForRequirements (fun _ => fr) ⟨cards⟩ st).2
  | ResolverOp.forId id m => (ExecutorForId id m st).2
  | ResolverOp.disposeEx id => (DisposeExecutor id st).2
  | ResolverOp.destroyEx id => DestroyExecutor id st

/-- State after a sequence of resolver calls. -/
def runOps (st : ResolverState) (ops : List ResolverOp) : ResolverState :=
  ops.foldl applyOp st

/-- Invariant I1: every cardinality string appearing as a value in
`keys_to_cardinalities` has a matching entry in `executors` keyed by it. -/
def TwoTableConsistent (st : ResolverState) : Prop :=
  ∀ k c, lookupA k st.keys_to_cardinalities = some c →
    ∃ e, lookupA c st.executors = some e

/-- Companion invariant: no two public identifiers name the same cardinality
string (needed to show `DestroyExecutor` preserves I1). -/
def KeyInjective (st : ResolverState) : Prop :=
  ∀ k1 k2 c, lookupA k1 st.keys_to_cardinalities = some c →
    lookupA k2 st.keys_to_cardinalities = some c → k1 = k2

/-! ### Association-list lemmas -/

theorem lookupA_append_some {α : Type} {k : String} {l : List (String × α)}
    {v : α} (m : List (String × α)) (h : lookupA k l = some v) :
    lookupA k (l ++ m) = some v := by
  induction l with
  | nil => simp [lookupA] at h
  | cons p rest ih =>
      simp only [lookupA, List.cons_append] at h ⊢
      by_cases hk : k = p.1
      · simpa [hk] using h
      · simp only [hk, if_false] at h ⊢
        exact ih h

theorem lookupA_append_none {α : Type} {k : String} {l : List (String × α)}
    (m : List (String × α)) (h : lookupA k l = none) :
    lookupA k (l ++ m) = lookupA k m := by
  induction l with
  | nil => simp
  | cons p rest ih =>
      simp only [lookupA, List.cons_append] at h ⊢
      by_cases hk : k = p.1
      · simp [hk] at h
      · simp only [hk, if_false] at h ⊢
        exact ih h

theorem insertA_of_none {α : Type} {k : String} {l : List (String × α)}
    (v : α) (h : lookupA k l = none) : insertA k v l = l ++ [(k, v)] := by
  simp [insertA, h]

theorem insertA_of_some {α : Type} {k : String} {l : List (String × α)}
    {w : α} (v : α) (h : lookupA k l = some w) : insertA k v l = l := by
  simp [insertA, h]

theorem lookupA_insertA_preserved {α : Type} {c : String}
    {l : List (String × α)} {e : α} (k : String) (v : α)
    (h : lookupA c l = some e) : lookupA c (insertA k v l) = some e := by
  unfold insertA
  cases hl : lookupA k l with
  | some w => exact h
  | none => exact lookupA_append_some _ h

theorem lookupA_insertA_new {α : Type} {k : String} {l : List (String × α)}
    (v : α) (h : lookupA k l = none) : lookupA k (insertA k v l) = some v := by
  rw [insertA_of_none v h, lookupA_append_none _ h]
  simp [lookupA]

theorem lookupA_insertA_ne {α : Type} {c k : String} {l : List (String × α)}
    (v : α) (hne : c ≠ k) : lookupA c (insertA k v l) = lookupA c l := by
  unfold insertA
  cases hl : lookupA k l with
  | some w => rfl
  | none =>
      cases hc : lookupA c l with
      | some e => exact lookupA_append_some _ hc
      | none =>
          rw [lookupA_append_none _ hc]
          simp [lookupA, hne]

theorem lookupA_updateA_self {α : Type} (k : String) (f : α → α)
    (l : List (String × α)) :
    lookupA k (updateA k f l) = Option.map f (lookupA k l) := by
  induction l with
  | nil => simp [lookupA, updateA]
  | cons p rest ih =>
      by_cases hk : k = p.1
      · simp [lookupA, updateA, hk]
      · simp [lookupA, updateA, hk, ih]

theorem lookupA_updateA_ne {α : Type} {c k : String} (f : α → α)
    (l : List (String × α)) (hne : c ≠ k) :
    lookupA c (updateA k f l) = lookupA c l := by
  induction l with
  | nil => simp [updateA]
  | cons p rest ih =>
      by_cases hk : k = p.1
      · subst hk
        simp [lookupA, updateA, hne, ih]
      · by_cases hc : c = p.1
        · simp [lookupA, updateA, hk, hc]
        · simp [lookupA, updateA, hk, hc, ih]

theorem updateA_append_none {α : Type} {k : String} {l : List (String × α)}
    (f : α → α) (e : α) (h : lookupA k l = none) :
    updateA k f (l ++ [(k, e)]) = l ++ [(k, f e)] := by
  induction l with
  | nil => simp [updateA]
  | cons p rest ih =>
      simp only [lookupA] at h
      by_cases hk : k = p.1
      · simp [hk] at h
      · simp only [hk, if_false] at h
        simp [updateA, hk, ih h]

theorem lookupA_eraseA_self {α : Type} (k : String) (l : List (String × α)) :
    lookupA k (eraseA k l) = none := by
  induction l with
  | nil => rfl
  | cons p rest ih =>
      by_cases hk : p.1 = k
      · simpa [eraseA, List.filter, hk] using ih
      · have : k ≠ p.1 := fun h => hk h.symm
        simpa [eraseA, List.filter, hk, lookupA, this] using ih

theorem lookupA_eraseA_ne {α : Type} {c k : String} (l : List (String × α))
    (hne : c ≠ k) : lookupA c (eraseA k l) = lookupA c l := by
  induction l with
  | nil => rfl
  | cons p rest ih =>
      by_cases hk : p.1 = k
      · have : c ≠ p.1 := fun h => hne (h ▸ hk)
        simpa [eraseA, List.filter, hk, lookupA, this, hne] using ih
      · by_cases hc : c = p.1
        · simp [eraseA, List.filter, hk, lookupA, hc]
        · simpa [eraseA, List.filter, hk, lookupA, hc] using ih

theorem eraseA_of_none {α : Type} {k : String} {l : List (String × α)}
    (h : lookupA k l = none) : eraseA k l = l := by
  induction l with
  | nil => rfl
  | cons p rest ih =>
      simp only [lookupA] at h
      by_cases hk : k = p.1
      · simp [hk] at h
      · simp only [hk, if_false] at h
        have : p.1 ≠ k := fun hh => hk hh.symm
        simp [eraseA, List.filter, this] at ih ⊢
        exact ih h

theorem eraseA_append {α : Type} (k : String) (l m : List (String × α)) :
    eraseA k (l ++ m) = eraseA k l ++ eraseA k m := by
  simp [eraseA, List.filter_append]

theorem eraseA_single_self {α : Type} (k : String) (v : α) :
    eraseA k [(k, v)] = [] := by
  simp [eraseA]

/-! ### Resolver and handler helper lemmas -/

theorem executorForId_ok {st : ResolverState} {ex_id c : String}
    {entry : ExecutorEntry} (m : String)
    (hk : lookupA ex_id st.keys_to_cardinalities = some c)
    (hc : lookupA c st.executors = some entry) :
    ExecutorForId ex_id m st = (Except.ok entry, st) := by
  simp [ExecutorForId, hk, hc]

theorem requireExecutor_ok {st : ResolverState} {ex_id c : String}
    {entry : ExecutorEntry} (m : String)
    (hk : lookupA ex_id st.keys_to_cardinalities = some c)
    (hc : lookupA c st.executors = some entry) :
    RequireExecutor m ex_id st = (Except.ok entry, st) := by
  simp [RequireExecutor, executorForId_ok m hk hc]

theorem lookupA_destroy_self (ex_id : String) (st : ResolverState) :
    lookupA ex_id (DestroyExecutor ex_id st).keys_to_cardinalities = none := by
  unfold DestroyExecutor
  cases h : lookupA ex_id st.keys_to_cardinalities with
  | none => simpa using h
  | some cstr => simpa using lookupA_eraseA_self ex_id _

theorem executorForId_after_destroy (ex_id m : String) (st : ResolverState) :
    (ExecutorForId ex_id m (DestroyExecutor ex_id st)).1 =
      Except.error ⟨StatusCode.failedPrecondition,
        "Error evaluating `ExecutorService::" ++ m ++
          "`. No executor found for ID: '" ++ ex_id ++ "'."⟩ := by
  simp [ExecutorForId, lookupA_destroy_self]

theorem handleNotOK_fp {e : AbslStatus}
    (hfp : e.code = StatusCode.failedPrecondition) (ex_id : String)
    (st : ResolverState) :
    HandleNotOK e ex_id st = (absl_to_grpc e, DestroyExecutor ex_id st) := by
  simp [HandleNotOK, hfp]

theorem handleNotOK_other {e : AbslStatus}
    (hfp : e.code ≠ StatusCode.failedPrecondition) (ex_id : String)
    (st : ResolverState) : HandleNotOK e ex_id st = (absl_to_grpc e, st) := by
  simp [HandleNotOK, hfp]

/-- The public identifier minted by `ExecutorForRequirements` when it
constructs a new executor: canonical string, service id, monotonic index. -/
def freshKey (st : ResolverState) (cstr : String) : String :=
  cstr ++ "/" ++ st.service_id ++ "/" ++ toString st.executor_index

/-- The state after registering a new executor for `cstr`. -/
def registerState (st : ResolverState) (cstr : String) (entry : ExecutorEntry) :
    ResolverState :=
  { st with
    executor_index := st.executor_index + 1
    keys_to_cardinalities :=
      insertA (freshKey st cstr) cstr st.keys_to_cardinalities
    executors := insertA cstr entry st.executors }

/-- The state after decrementing the refcount of the entry keyed by `cstr`. -/
def decrementState (st : ResolverState) (cstr : String) : ResolverState :=
  { st with
    executors :=
      updateA cstr (fun en => { en with remote_refcount := en.remote_refcount - 1 })
        st.executors }

theorem executorForRequirements_reuse {st : ResolverState}
    {req : ExecutorRequirements} {e : ExecutorEntry}
    (f : List (String × Int) → Except AbslStatus Nat)
    (hc : lookupA (CardinalitiesToString req.cardinalities) st.executors = some e) :
    ExecutorForRequirements f req st =
      (Except.ok { e with remote_refcount := e.remote_refcount + 1 },
        { st with
          executors :=
            updateA (CardinalitiesToString req.cardinalities)
              (fun en => { en with remote_refcount := en.remote_refcount + 1 })
              st.executors }) := by
  simp [ExecutorForRequirements, hc]

theorem executorForRequirements_factory_error {st : ResolverState}
    {req : ExecutorRequirements} {err : AbslStatus}
    {f : List (String × Int) → Except AbslStatus Nat}
    (hc : lookupA (CardinalitiesToString req.cardinalities) st.executors = none)
    (hf : f req.cardinalities = Except.error err) :
    ExecutorForRequirements f req st = (Except.error err, st) := by
  simp [ExecutorForRequirements, hc, hf]

theorem executorForRequirements_new {st : ResolverState}
    {req : ExecutorRequirements} {ex : Nat}
    {f : List (String × Int) → Except AbslStatus Nat}
    (hc : lookupA (CardinalitiesToString req.cardinalities) st.executors = none)
    (hf : f req.cardinalities = Except.ok ex) :
    ExecutorForRequirements f req st =
      (Except.ok ⟨ex, 1, freshKey st (CardinalitiesToString req.cardinalities)⟩,
        registerState st (CardinalitiesToString req.cardinalities)
          ⟨ex, 1, freshKey st (CardinalitiesToString req.cardinalities)⟩) := by
  simp [ExecutorForRequirements, hc, hf, freshKey, registerState]

theorem disposeExecutor_unknown {st : ResolverState} {ex_id : String}
    (hid : lookupA ex_id st.keys_to_cardinalities = none) :
    DisposeExecutor ex_id st = (okStatus, st) := by
  simp [DisposeExecutor, hid]

theorem disposeExecutor_inconsistent {st : ResolverState} {ex_id cstr : String}
    (hid : lookupA ex_id st.keys_to_cardinalities = some cstr)
    (hc : lookupA cstr st.executors = none) :
    DisposeExecutor ex_id st =
      (⟨StatusCode.internal,
        "No executor found for cardinalities string: " ++ cstr ++
          ", referred to by executor id " ++ ex_id⟩, st) := by
  simp [DisposeExecutor, hid, hc]

theorem disposeExecutor_found {st : ResolverState} {ex_id cstr : String}
    {e : ExecutorEntry}
    (hid : lookupA ex_id st.keys_to_cardinalities = some cstr)
    (hc : lookupA cstr st.executors = some e) :
    DisposeExecutor ex_id st =
      (if e.remote_refcount - 1 = 0
        then (okStatus, DestroyExecutor ex_id (decrementState st cstr))
        else (okStatus, decrementState st cstr)) := by
  simp only [DisposeExecutor, hid, hc, decrementState]

/-! ### Invariant preservation (two-table consistency) -/

/-- The joint registry invariant: two-table consistency together with
injectivity of the identifier table on its values. -/
def RegistryInv (st : ResolverState) : Prop :=
  TwoTableConsistent st ∧ KeyInjective st

theorem lookupA_append_single {α : Type} {k key : String}
    {l : List (String × α)} {v c : α}
    (h : lookupA k (l ++ [(key, v)]) = some c) :
    lookupA k l = some c ∨ (lookupA k l = none ∧ k = key ∧ c = v) := by
  cases hl : lookupA k l with
  | some c0 =>
      left
      rw [lookupA_append_some _ hl] at h
      exact h
  | none =>
      right
      rw [lookupA_append_none _ hl] at h
      by_cases hk : k = key
      · simp [lookupA, hk] at h
        exact ⟨rfl, hk, h.symm⟩
      · simp [lookupA, hk] at h

theorem registryInv_updateRefcount {st : ResolverState} (cstr : String)
    (f : ExecutorEntry → ExecutorEntry) (h : RegistryInv st) :
    RegistryInv { st with executors := updateA cstr f st.executors } := by
  constructor
  · intro k c hk
    obtain ⟨e, he⟩ := h.1 k c hk
    by_cases hcc : c = cstr
    · subst hcc
      exact ⟨f e, by rw [lookupA_updateA_self, he]; rfl⟩
    · exact ⟨e, by rw [lookupA_updateA_ne f _ hcc]; exact he⟩
  · intro k1 k2 c h1 h2
    exact h.2 k1 k2 c h1 h2

theorem registryInv_destroy {st : ResolverState} (ex_id : String)
    (h : RegistryInv st) : RegistryInv (DestroyExecutor ex_id st) := by
  unfold DestroyExecutor
  cases hid : lookupA ex_id st.keys_to_cardinalities with
  | none => exact h
  | some c =>
      constructor
      · intro k c' hk
        have hne : k ≠ ex_id := by
          intro hkeq
          subst hkeq
          rw [lookupA_eraseA_self] at hk
          exact Option.noConfusion hk
        rw [lookupA_eraseA_ne _ hne] at hk
        obtain ⟨e, he⟩ := h.1 k c' hk
        have hcne : c' ≠ c := by
          intro hceq
          subst hceq
          exact hne (h.2 k ex_id c' hk hid)
        exact ⟨e, by rw [lookupA_eraseA_ne _ hcne]; exact he⟩
      · intro k1 k2 c' h1 h2
        have hne1 : k1 ≠ ex_id := by
          intro hkeq
          subst hkeq
          rw [lookupA_eraseA_self] at h1
          exact Option.noConfusion h1
        have hne2 : k2 ≠ ex_id := by
          intro hkeq
          subst hkeq
          rw [lookupA_eraseA_self] at h2
          exact Option.noConfusion h2
        rw [lookupA_eraseA_ne _ hne1] at h1
        rw [lookupA_eraseA_ne _ hne2] at h2
        exact h.2 k1 k2 c' h1 h2

theorem registryInv_register {st : ResolverState} {cstr : String}
    (entry : ExecutorEntry)
    (hc : lookupA cstr st.executors = none) (h : RegistryInv st) :
    RegistryInv (registerState st cstr entry) := by
  cases hkold : lookupA (freshKey st cstr) st.keys_to_cardinalities with
  | some cold =>
      constructor
      · intro k c' hk
        rw [show (registerState st cstr entry).keys_to_cardinalities =
              insertA (freshKey st cstr) cstr st.keys_to_cardinalities from rfl,
            insertA_of_some cstr hkold] at hk
        obtain ⟨e', he'⟩ := h.1 k c' hk
        exact ⟨e', lookupA_insertA_preserved _ _ he'⟩
      · intro k1 k2 c' h1 h2
        rw [show (registerState st cstr entry).keys_to_cardinalities =
              insertA (freshKey st cstr) cstr st.keys_to_cardinalities from rfl,
            insertA_of_some cstr hkold] at h1 h2
        exact h.2 k1 k2 c' h1 h2
  | none =>
      constructor
      · intro k c' hk
        rw [show (registerState st cstr entry).keys_to_cardinalities =
              insertA (freshKey st cstr) cstr st.keys_to_cardinalities from rfl,
            insertA_of_none cstr hkold] at hk
        rcases lookupA_append_single hk with hold | ⟨_, _, hcv⟩
        · obtain ⟨e', he'⟩ := h.1 k c' hold
          exact ⟨e', lookupA_insertA_preserved _ _ he'⟩
        · rw [hcv]
          exact ⟨entry, lookupA_insertA_new _ hc⟩
      · intro k1 k2 c' h1 h2
        rw [show (registerState st cstr entry).keys_to_cardinalities =
              insertA (freshKey st cstr) cstr st.keys_to_cardinalities from rfl,
            insertA_of_none cstr hkold] at h1 h2
        rcases lookupA_append_single h1 with hold1 | ⟨_, hk1, hcv1⟩
        · rcases lookupA_append_single h2 with hold2 | ⟨_, hk2, hcv2⟩
          · exact h.2 k1 k2 c' hold1 hold2
          · rw [hcv2] at hold1
            obtain ⟨e', he'⟩ := h.1 k1 cstr hold1
            rw [hc] at he'
            exact Option.noConfusion he'
        · rcases lookupA_append_single h2 with hold2 | ⟨_, hk2, hcv2⟩
          · rw [hcv1] at hold2
            obtain ⟨e', he'⟩ := h.1 k2 cstr hold2
            rw [hc] at he'
            exact Option.noConfusion he'
          · rw [hk1, hk2]

theorem registryInv_forRequirements {st : ResolverState}
    (f : List (String × Int) → Except AbslStatus Nat)
    (req : ExecutorRequirements) (h : RegistryInv st) :
    RegistryInv (ExecutorForRequirements f req st).2 := by
  cases hc : lookupA (CardinalitiesToString req.cardinalities) st.executors with
  | some e =>
      rw [executorForRequirements_reuse f hc]
      exact registryInv_updateRefcount _ _ h
  | none =>
      cases hf : f req.cardinalities with
      | error err =>
          rw [executorForRequirements_factory_error hc hf]
          exact h
      | ok ex =>
          rw [executorForRequirements_new hc hf]
          exact registryInv_register _ hc h

theorem registryInv_disposeEx {st : ResolverState} (ex_id : String)
    (h : RegistryInv st) : RegistryInv (DisposeExecutor ex_id st).2 := by
  cases hid : lookupA ex_id st.keys_to_cardinalities with
  | none =>
      rw [disposeExecutor_unknown hid]
      exact h
  | some cstr =>
      cases hc : lookupA cstr st.executors with
      | none =>
          rw [disposeExecutor_inconsistent hid hc]
          exact h
      | some e =>
          rw [disposeExecutor_found hid hc]
          have h2 : RegistryInv (decrementState st cstr) :=
            registryInv_updateRefcount cstr _ h
          by_cases hz : e.remote_refcount - 1 = 0
          · rw [if_pos hz]
            exact registryInv_destroy ex_id h2
          · rw [if_neg hz]
            exact h2

theorem executorForId_state (ex_id m : String) (st : ResolverState) :
    (ExecutorForId ex_id m st).2 = st := by
  cases hk : lookupA ex_id st.keys_to_cardinalities with
  | none => simp [ExecutorForId, hk]
  | some cstr =>
      cases hc : lookupA cstr st.executors with
      | none => simp [ExecutorForId, hk, hc]
      | some e => simp [ExecutorForId, hk, hc]

theorem registryInv_applyOp {st : ResolverState} (op : ResolverOp)
    (h : RegistryInv st) : RegistryInv (applyOp st op) := by
  cases op with
  | forRequirements fr cards => exact registryInv_forRequirements _ _ h
  | forId id m =>
      show RegistryInv (ExecutorForId id m st).2
      rw [executorForId_state]
      exact h
  | disposeEx id => exact registryInv_disposeEx id h
  | destroyEx id => exact registryInv_destroy id h

theorem registryInv_runOps {st : ResolverState} (ops : List ResolverOp)
    (h : RegistryInv st) : RegistryInv (runOps st ops) := by
  induction ops generalizing st with
  | nil => exact h
  | cons op rest ih => exact ih (registryInv_applyOp op h)

theorem registryInv_init (sid : String) : RegistryInv (initState sid) := by
  constructor
  · intro k c hk
    exact Option.noConfusion hk
  · intro k1 k2 c h1 h2
    exact Option.noConfusion h1

/-! ### Handler compute lemmas -/

theorem requireExecutor_error_of_fst {st : ResolverState} {e : AbslStatus}
    (m ex_id : String) (hE : (ExecutorForId ex_id m st).1 = Except.error e) :
    RequireExecutor m ex_id st = (Except.error (absl_to_grpc e), st) := by
  have hpair : ExecutorForId ex_id m st = (Except.error e, st) :=
    Prod.ext hE (executorForId_state ex_id m st)
  simp [RequireExecutor, hpair]

theorem requireExecutor_ok_of_fst {st : ResolverState} {entry : ExecutorEntry}
    (m ex_id : String) (hE : (ExecutorForId ex_id m st).1 = Except.ok entry) :
    RequireExecutor m ex_id st = (Except.ok entry, st) := by
  have hpair : ExecutorForId ex_id m st = (Except.ok entry, st) :=
    Prod.ext hE (executorForId_state ex_id m st)
  simp [RequireExecutor, hpair]

theorem createValue_cap_error {st : ResolverState} {ex_id cstr : String}
    {entry : ExecutorEntry} {e : AbslStatus}
    {capV : Nat → Except AbslStatus ValueId}
    (hk : lookupA ex_id st.keys_to_cardinalities = some cstr)
    (hc : lookupA cstr st.executors = some entry)
    (hcap : capV entry.executor = Except.error e) :
    CreateValue ex_id capV st =
      ⟨(HandleNotOK e ex_id st).2, (HandleNotOK e ex_id st).1, none, []⟩ := by
  simp [CreateValue, requireExecutor_ok "CreateValue" hk hc, hcap, guardExit]

theorem createValue_cap_ok {st : ResolverState} {ex_id cstr : String}
    {entry : ExecutorEntry} {v : ValueId}
    {capV : Nat → Except AbslStatus ValueId}
    (hk : lookupA ex_id st.keys_to_cardinalities = some cstr)
    (hc : lookupA cstr st.executors = some entry)
    (hcap : capV entry.executor = Except.ok v) :
    CreateValue ex_id capV st =
      ⟨st, grpcOK, some (IdToRemoteValue v),
        [VEvent.produce v, VEvent.encode v, VEvent.release v]⟩ := by
  simp [CreateValue, requireExecutor_ok "CreateValue" hk hc, hcap, guardExit]

theorem createCall_cap_error {st : ResolverState}
    {ex_id cstr function_ref : String} {argument_ref : Option String}
    {entry : ExecutorEntry} {e : AbslStatus} {fv : ValueId} {av : Option ValueId}
    {capC : Nat → ValueId → Option ValueId → Except AbslStatus ValueId}
    (hk : lookupA ex_id st.keys_to_cardinalities = some cstr)
    (hc : lookupA cstr st.executors = some entry)
    (hfn : RemoteValueToId function_ref = Except.ok fv)
    (harg : decodeArgRef argument_ref = Except.ok av)
    (hcap : capC entry.executor fv av = Except.error e) :
    CreateCall ex_id function_ref argument_ref capC st =
      ⟨(HandleNotOK e ex_id st).2, (HandleNotOK e ex_id st).1, none, []⟩ := by
  simp [CreateCall, requireExecutor_ok "CreateCall" hk hc, hfn, harg, hcap,
    guardExit]

theorem createCall_cap_ok {st : ResolverState}
    {ex_id cstr function_ref : String} {argument_ref : Option String}
    {entry : ExecutorEntry} {v : ValueId} {fv : ValueId} {av : Option ValueId}
    {capC : Nat → ValueId → Option ValueId → Except AbslStatus ValueId}
    (hk : lookupA ex_id st.keys_to_cardinalities = some cstr)
    (hc : lookupA cstr st.executors = some entry)
    (hfn : RemoteValueToId function_ref = Except.ok fv)
    (harg : decodeArgRef argument_ref = Except.ok av)
    (hcap : capC entry.executor fv av = Except.ok v) :
    CreateCall ex_id function_ref argument_ref capC st =
      ⟨st, grpcOK, some (IdToRemoteValue v),
        [VEvent.produce v, VEvent.encode v, VEvent.release v]⟩ := by
  simp [CreateCall, requireExecutor_ok "CreateCall" hk hc, hfn, harg, hcap,
    guardExit]

theorem createStruct_cap_error {st : ResolverState} {ex_id cstr : String}
    {element_refs : List String} {entry : ExecutorEntry} {e : AbslStatus}
    {vs : List ValueId} {capS : Nat → List ValueId → Except AbslStatus ValueId}
    (hk : lookupA ex_id st.keys_to_cardinalities = some cstr)
    (hc : lookupA cstr st.executors = some entry)
    (hels : decodeElements element_refs = Except.ok vs)
    (hcap : capS entry.executor vs = Except.error e) :
    CreateStruct ex_id element_refs capS st =
      ⟨(HandleNotOK e ex_id st).2, (HandleNotOK e ex_id st).1, none, []⟩ := by
  simp [CreateStruct, requireExecutor_ok "CreateStruct" hk hc, hels, hcap,
    guardExit]

theorem createStruct_cap_ok {st : ResolverState} {ex_id cstr : String}
    {element_refs : List String} {entry : ExecutorEntry} {v : ValueId}
    {vs : List ValueId} {capS : Nat → List ValueId → Except AbslStatus ValueId}
    (hk : lookupA ex_id st.keys_to_cardinalities = some cstr)
    (hc : lookupA cstr st.executors = some entry)
    (hels : decodeElements element_refs = Except.ok vs)
    (hcap : capS entry.executor vs = Except.ok v) :
    CreateStruct ex_id element_refs capS st =
      ⟨st, grpcOK, some (IdToRemoteValue v),
        [VEvent.produce v, VEvent.encode v, VEvent.release v]⟩ := by
  simp [CreateStruct, requireExecutor_ok "CreateStruct" hk hc, hels, hcap,
    guardExit]

theorem createSelection_cap_error {st : ResolverState}
    {ex_id cstr source_ref : String} {index : Nat} {entry : ExecutorEntry}
    {e : AbslStatus} {sv : ValueId}
    {capSel : Nat → ValueId → Nat → Except AbslStatus ValueId}
    (hk : lookupA ex_id st.keys_to_cardinalities = some cstr)
    (hc : lookupA cstr st.executors = some entry)
    (hsrc : RemoteValueToId source_ref = Except.ok sv)
    (hcap : capSel entry.executor sv index = Except.error e) :
    CreateSelection ex_id source_ref index capSel st =
      ⟨(HandleNotOK e ex_id st).2, (HandleNotOK e ex_id st).1, none, []⟩ := by
  simp [CreateSelection, requireExecutor_ok "CreateSelection" hk hc, hsrc,
    hcap, guardExit]

theorem createSelection_cap_ok {st : ResolverState}
    {ex_id cstr source_ref : String} {index : Nat} {entry : ExecutorEntry}
    {v sv : ValueId} {capSel : Nat → ValueId → Nat → Except AbslStatus ValueId}
    (hk : lookupA ex_id st.keys_to_cardinalities = some cstr)
    (hc : lookupA cstr st.executors = some entry)
    (hsrc : RemoteValueToId source_ref = Except.ok sv)
    (hcap : capSel entry.executor sv index = Except.ok v) :
    CreateSelection ex_id source_ref index capSel st =
      ⟨st, grpcOK, some (IdToRemoteValue v),
        [VEvent.produce v, VEvent.encode v, VEvent.release v]⟩ := by
  simp [CreateSelection, requireExecutor_ok "CreateSelection" hk hc, hsrc,
    hcap, guardExit]

theorem compute_cap_error {st : ResolverState} {ex_id cstr value_ref : String}
    {entry : ExecutorEntry} {e : AbslStatus} {rv : ValueId}
    {capM : Nat → ValueId → AbslStatus}
    (hk : lookupA ex_id st.keys_to_cardinalities = some cstr)
    (hc : lookupA cstr st.executors = some entry)
    (hv : RemoteValueToId value_ref = Except.ok rv)
    (hcap : capM entry.executor rv = e) (hne : e.code ≠ StatusCode.ok) :
    Compute ex_id value_ref capM st =
      ⟨(HandleNotOK e ex_id st).2, (HandleNotOK e ex_id st).1⟩ := by
  simp [Compute, requireExecutor_ok "Compute" hk hc, hv, hcap, hne]

theorem compute_cap_ok {st : ResolverState} {ex_id cstr value_ref : String}
    {entry : ExecutorEntry} {e : AbslStatus} {rv : ValueId}
    {capM : Nat → ValueId → AbslStatus}
    (hk : lookupA ex_id st.keys_to_cardinalities = some cstr)
    (hc : lookupA cstr st.executors = some entry)
    (hv : RemoteValueToId value_ref = Except.ok rv)
    (hcap : capM entry.executor rv = e) (hok : e.code = StatusCode.ok) :
    Compute ex_id value_ref capM st = ⟨st, absl_to_grpc e⟩ := by
  simp [Compute, requireExecutor_ok "Compute" hk hc, hv, hcap, hok]

theorem dispose_resolved {st : ResolverState} {ex_id cstr : String}
    {entry : ExecutorEntry} (value_refs : List String)
    (cap : Nat → ValueId → AbslStatus)
    (hk : lookupA ex_id st.keys_to_cardinalities = some cstr)
    (hc : lookupA cstr st.executors = some entry) :
    Dispose ex_id value_refs cap st =
      ⟨st, (disposeLoop cap entry.executor value_refs).1,
        (disposeLoop cap entry.executor value_refs).2⟩ := by
  simp [Dispose, requireExecutor_ok "Dispose" hk hc]

/-! ### Frame lemmas: which handlers leave the registry untouched -/

theorem createValue_state_frame {st : ResolverState} {ex_id : String}
    {capV : Nat → Except AbslStatus ValueId}
    (hfp : ∀ x e, capV x = Except.error e →
      e.code ≠ StatusCode.failedPrecondition) :
    (CreateValue ex_id capV st).state = st := by
  cases hE : (ExecutorForId ex_id "CreateValue" st).1 with
  | error e => simp [CreateValue, requireExecutor_error_of_fst _ _ hE]
  | ok entry =>
      cases hcap : capV entry.executor with
      | error e =>
          simp [CreateValue, requireExecutor_ok_of_fst _ _ hE, hcap,
            handleNotOK_other (hfp entry.executor e hcap)]
      | ok v => simp [CreateValue, requireExecutor_ok_of_fst _ _ hE, hcap]

theorem createCall_state_frame {st : ResolverState}
    {ex_id function_ref : String} {argument_ref : Option String}
    {capC : Nat → ValueId → Option ValueId → Except AbslStatus ValueId}
    (hfp : ∀ x a b e, capC x a b = Except.error e →
      e.code ≠ StatusCode.failedPrecondition) :
    (CreateCall ex_id function_ref argument_ref capC st).state = st := by
  cases hE : (ExecutorForId ex_id "CreateCall" st).1 with
  | error e => simp [CreateCall, requireExecutor_error_of_fst _ _ hE]
  | ok entry =>
      cases hfn : RemoteValueToId function_ref with
      | error g => simp [CreateCall, requireExecutor_ok_of_fst _ _ hE, hfn]
      | ok fv =>
          cases harg : decodeArgRef argument_ref with
          | error g =>
              simp [CreateCall, requireExecutor_ok_of_fst _ _ hE, hfn, harg]
          | ok av =>
              cases hcap : capC entry.executor fv av with
              | error e =>
                  simp [CreateCall, requireExecutor_ok_of_fst _ _ hE, hfn,
                    harg, hcap,
                    handleNotOK_other (hfp entry.executor fv av e hcap)]
              | ok v =>
                  simp [CreateCall, requireExecutor_ok_of_fst _ _ hE, hfn,
                    harg, hcap]

theorem createStruct_state_frame {st : ResolverState} {ex_id : String}
    {element_refs : List String}
    {capS : Nat → List ValueId → Except AbslStatus ValueId}
    (hfp : ∀ x l e, capS x l = Except.error e →
      e.code ≠ StatusCode.failedPrecondition) :
    (CreateStruct ex_id element_refs capS st).state = st := by
  cases hE : (ExecutorForId ex_id "CreateStruct" st).1 with
  | error e => simp [CreateStruct, requireExecutor_error_of_fst _ _ hE]
  | ok entry =>
      cases hels : decodeElements element_refs with
      | error g => simp [CreateStruct, requireExecutor_ok_of_fst _ _ hE, hels]
      | ok vs =>
          cases hcap : capS entry.executor vs with
          | error e =>
              simp [CreateStruct, requireExecutor_ok_of_fst _ _ hE, hels,
                hcap, handleNotOK_other (hfp entry.executor vs e hcap)]
          | ok v =>
              simp [CreateStruct, requireExecutor_ok_of_fst _ _ hE, hels, hcap]

theorem createSelection_state_frame {st : ResolverState}
    {ex_id source_ref : String} {index : Nat}
    {capSel : Nat → ValueId → Nat → Except AbslStatus ValueId}
    (hfp : ∀ x s i e, capSel x s i = Except.error e →
      e.code ≠ StatusCode.failedPrecondition) :
    (CreateSelection ex_id source_ref index capSel st).state = st := by
  cases hE : (ExecutorForId ex_id "CreateSelection" st).1 with
  | error e => simp [CreateSelection, requireExecutor_error_of_fst _ _ hE]
  | ok entry =>
      cases hsrc : RemoteValueToId source_ref with
      | error g =>
          simp [CreateSelection, requireExecutor_ok_of_fst _ _ hE, hsrc]
      | ok sv =>
          cases hcap : capSel entry.executor sv index with
          | error e =>
              simp [CreateSelection, requireExecutor_ok_of_fst _ _ hE, hsrc,
                hcap, handleNotOK_other (hfp entry.executor sv index e hcap)]
          | ok v =>
              simp [CreateSelection, requireExecutor_ok_of_fst _ _ hE, hsrc,
                hcap]

theorem compute_state_frame {st : ResolverState} {ex_id value_ref : String}
    {capM : Nat → ValueId → AbslStatus}
    (hfp : ∀ x v, (capM x v).code ≠ StatusCode.failedPrecondition) :
    (Compute ex_id value_ref capM st).state = st := by
  cases hE : (ExecutorForId ex_id "Compute" st).1 with
  | error e => simp [Compute, requireExecutor_error_of_fst _ _ hE]
  | ok entry =>
      cases hv : RemoteValueToId value_ref with
      | error g => simp [Compute, requireExecutor_ok_of_fst _ _ hE, hv]
      | ok rv =>
          by_cases hok : (capM entry.executor rv).code = StatusCode.ok
          · simp [Compute, requireExecutor_ok_of_fst _ _ hE, hv, hok]
          · simp [Compute, requireExecutor_ok_of_fst _ _ hE, hv, hok,
              handleNotOK_other (hfp entry.executor rv)]

theorem dispose_state_frame (st : ResolverState) (ex_id : String)
    (value_refs : List String) (cap : Nat → ValueId → AbslStatus) :
    (Dispose ex_id value_refs cap st).state = st := by
  cases hE : (ExecutorForId ex_id "Dispose" st).1 with
  | error e => simp [Dispose, requireExecutor_error_of_fst _ _ hE]
  | ok entry => simp [Dispose, requireExecutor_ok_of_fst _ _ hE]

/-! ### Guard-event lemmas -/

theorem createValue_no_guard_dispose (st : ResolverState) (ex_id : String)
    (capV : Nat → Except AbslStatus ValueId) (w : ValueId) :
    VEvent.guardDispose w ∉ (CreateValue ex_id capV st).events := by
  cases hE : (ExecutorForId ex_id "CreateValue" st).1 with
  | error e => simp [CreateValue, requireExecutor_error_of_fst _ _ hE, guardExit]
  | ok entry =>
      cases hcap : capV entry.executor with
      | error e =>
          simp [CreateValue, requireExecutor_ok_of_fst _ _ hE, hcap, guardExit]
      | ok v =>
          simp [CreateValue, requireExecutor_ok_of_fst _ _ hE, hcap, guardExit]

theorem createCall_no_guard_dispose (st : ResolverState)
    (ex_id function_ref : String) (argument_ref : Option String)
    (capC : Nat → ValueId → Option ValueId → Except AbslStatus ValueId)
    (w : ValueId) :
    VEvent.guardDispose w ∉
      (CreateCall ex_id function_ref argument_ref capC st).events := by
  cases hE : (ExecutorForId ex_id "CreateCall" st).1 with
  | error e => simp [CreateCall, requireExecutor_error_of_fst _ _ hE, guardExit]
  | ok entry =>
      cases hfn : RemoteValueToId function_ref with
      | error g => simp [CreateCall, requireExecutor_ok_of_fst _ _ hE, hfn, guardExit]
      | ok fv =>
          cases harg : decodeArgRef argument_ref with
          | error g =>
              simp [CreateCall, requireExecutor_ok_of_fst _ _ hE, hfn, harg, guardExit]
          | ok av =>
              cases hcap : capC entry.executor fv av with
              | error e =>
                  simp [CreateCall, requireExecutor_ok_of_fst _ _ hE, hfn,
                    harg, hcap, guardExit]
              | ok v =>
                  simp [CreateCall, requireExecutor_ok_of_fst _ _ hE, hfn,
                    harg, hcap, guardExit]

theorem createStruct_no_guard_dispose (st : ResolverState) (ex_id : String)
    (element_refs : List String)
    (capS : Nat → List ValueId → Except AbslStatus ValueId) (w : ValueId) :
    VEvent.guardDispose w ∉ (CreateStruct ex_id element_refs capS st).events := by
  cases hE : (ExecutorForId ex_id "CreateStruct" st).1 with
  | error e => simp [CreateStruct, requireExecutor_error_of_fst _ _ hE, guardExit]
  | ok entry =>
      cases hels : decodeElements element_refs with
      | error g => simp [CreateStruct, requireExecutor_ok_of_fst _ _ hE, hels, guardExit]
      | ok vs =>
          cases hcap : capS entry.executor vs with
          | error e =>
              simp [CreateStruct, requireExecutor_ok_of_fst _ _ hE, hels,
                hcap, guardExit]
          | ok v =>
              simp [CreateStruct, requireExecutor_ok_of_fst _ _ hE, hels,
                hcap, guardExit]

theorem createSelection_no_guard_dispose (st : ResolverState)
    (ex_id source_ref : String) (index : Nat)
    (capSel : Nat → ValueId → Nat → Except AbslStatus ValueId) (w : ValueId) :
    VEvent.guardDispose w ∉
      (CreateSelection ex_id source_ref index capSel st).events := by
  cases hE : (ExecutorForId ex_id "CreateSelection" st).1 with
  | error e => simp [CreateSelection, requireExecutor_error_of_fst _ _ hE, guardExit]
  | ok entry =>
      cases hsrc : RemoteValueToId source_ref with
      | error g =>
          simp [CreateSelection, requireExecutor_ok_of_fst _ _ hE, hsrc, guardExit]
      | ok sv =>
          cases hcap : capSel entry.executor sv index with
          | error e =>
              simp [CreateSelection, requireExecutor_ok_of_fst _ _ hE, hsrc,
                hcap, guardExit]
          | ok v =>
              simp [CreateSelection, requireExecutor_ok_of_fst _ _ hE, hsrc,
                hcap, guardExit]

/-! ### Dispose-loop lemmas -/

/-- The ids that decode successfully out of a reference batch, in order. -/
def decodedIds (refs : List String) : List ValueId :=
  refs.filterMap (fun r =>
    match RemoteValueToId r with
    | Except.ok v => some v
    | Except.error _ => none)

theorem decodedIds_cons_err {r : String} {g : GrpcStatus} (refs : List String)
    (hr : RemoteValueToId r = Except.error g) :
    decodedIds (r :: refs) = decodedIds refs := by
  simp [decodedIds, hr]

theorem decodedIds_cons_ok {r : String} {v : ValueId} (refs : List String)
    (hr : RemoteValueToId r = Except.ok v) :
    decodedIds (r :: refs) = v :: decodedIds refs := by
  simp [decodedIds, hr]

theorem disposeLoop_all_ok {cap : Nat → ValueId → AbslStatus} {x : Nat} :
    ∀ {refs : List String},
      (∀ v ∈ decodedIds refs, (cap x v).code = StatusCode.ok) →
      disposeLoop cap x refs = (grpcOK, decodedIds refs)
  | [], _ => by simp [disposeLoop, decodedIds]
  | r :: rest, h => by
      cases hr : RemoteValueToId r with
      | error g =>
          rw [decodedIds_cons_err rest hr] at h ⊢
          simp only [disposeLoop, hr]
          exact disposeLoop_all_ok h
      | ok v =>
          rw [decodedIds_cons_ok rest hr] at h ⊢
          have hv : (cap x v).code = StatusCode.ok :=
            h v (List.mem_cons_self v _)
          have hrest := disposeLoop_all_ok
            (fun u hu => h u (List.mem_cons_of_mem v hu))
          simp [disposeLoop, hr, hv, hrest]

theorem disposeLoop_first_fail {cap : Nat → ValueId → AbslStatus} {x : Nat}
    {bad : ValueId} :
    ∀ {refs : List String} {good rest : List ValueId},
      decodedIds refs = good ++ bad :: rest →
      (∀ v ∈ good, (cap x v).code = StatusCode.ok) →
      (cap x bad).code ≠ StatusCode.ok →
      disposeLoop cap x refs = (absl_to_grpc (cap x bad), good ++ [bad])
  | [], good, rest, hdec, _, _ => by
      simp [decodedIds] at hdec
  | r :: rrest, good, rest, hdec, hgood, hbad => by
      cases hr : RemoteValueToId r with
      | error g =>
          rw [decodedIds_cons_err rrest hr] at hdec
          simp only [disposeLoop, hr]
          exact disposeLoop_first_fail hdec hgood hbad
      | ok v =>
          rw [decodedIds_cons_ok rrest hr] at hdec
          cases good with
          | nil =>
              simp only [List.nil_append, List.cons.injEq] at hdec
              obtain ⟨hvb, -⟩ := hdec
              subst hvb
              simp [disposeLoop, hr, hbad]
          | cons g0 gs =>
              simp only [List.cons_append, List.cons.injEq] at hdec
              obtain ⟨hvg, hrest⟩ := hdec
              subst hvg
              have hv : (cap x v).code = StatusCode.ok :=
                hgood v (List.mem_cons_self v gs)
              have hrec := disposeLoop_first_fail hrest
                (fun u hu => hgood u (List.mem_cons_of_mem v hu)) hbad
              simp [disposeLoop, hr, hv, hrec]

/-! ### Iterated GetExecutor / DisposeExecutor (refcount symmetry) -/

/-- The state transition of one `GetExecutor` request. -/
def getStep (f : List (String × Int) → Except AbslStatus Nat)
    (reqCards : List (String × Int)) (st : ResolverState) : ResolverState :=
  (GetExecutor f reqCards st).state

/-- The state transition of one `DisposeExecutor` request. -/
def disposeStep (ex_id : String) (st : ResolverState) : ResolverState :=
  (DisposeExecutor ex_id st).2

/-- `n`-fold application of a state transition. -/
def iterateSt (f : ResolverState → ResolverState) :
    Nat → ResolverState → ResolverState
  | 0, s => s
  | n + 1, s => iterateSt f n (f s)

theorem iterateSt_last (f : ResolverState → ResolverState) :
    ∀ (n : Nat) (s : ResolverState),
      iterateSt f (n + 1) s = f (iterateSt f n s)
  | 0, s => rfl
  | n + 1, s => by
      show iterateSt f (n + 1) (f s) = f (iterateSt f (n + 1) s)
      rw [iterateSt_last f n (f s)]
      rfl

/-- The registry state after the executor for `cstr` has been registered with
refcount `n`: both tables extended by the new bindings. -/
def nGetState (st : ResolverState) (cstr key : String) (ex : Nat) (n : Nat) :
    ResolverState :=
  { st with
    executors := st.executors ++ [(cstr, ⟨ex, (n : Int), key⟩)]
    keys_to_cardinalities := st.keys_to_cardinalities ++ [(key, cstr)]
    executor_index := st.executor_index + 1 }

theorem getExecutor_new {st : ResolverState}
    {f : List (String × Int) → Except AbslStatus Nat}
    {reqCards : List (String × Int)} {ex : Nat}
    (h1 : lookupA (CardinalitiesToString (buildCardinalityMap reqCards))
      st.executors = none)
    (hf : f (buildCardinalityMap reqCards) = Except.ok ex) :
    GetExecutor f reqCards st =
      ⟨registerState st (CardinalitiesToString (buildCardinalityMap reqCards))
          ⟨ex, 1,
            freshKey st (CardinalitiesToString (buildCardinalityMap reqCards))⟩,
        grpcOK,
        some (freshKey st
          (CardinalitiesToString (buildCardinalityMap reqCards)))⟩ := by
  simp [GetExecutor,
    @executorForRequirements_new st ⟨buildCardinalityMap reqCards⟩ ex f h1 hf]

theorem getExecutor_reuse {st : ResolverState}
    {reqCards : List (String × Int)} {e : ExecutorEntry}
    (f : List (String × Int) → Except AbslStatus Nat)
    (hc : lookupA (CardinalitiesToString (buildCardinalityMap reqCards))
      st.executors = some e) :
    GetExecutor f reqCards st =
      ⟨{ st with
          executors :=
            updateA (CardinalitiesToString (buildCardinalityMap reqCards))
              (fun en => { en with remote_refcount := en.remote_refcount + 1 })
              st.executors },
        grpcOK, some e.executor_id⟩ := by
  simp [GetExecutor,
    @executorForRequirements_reuse st ⟨buildCardinalityMap reqCards⟩ e f hc]

theorem lookupA_nGet_key {st : ResolverState} {cstr key : String} {ex : Nat}
    {n : Nat} (h3 : lookupA key st.keys_to_cardinalities = none) :
    lookupA key (nGetState st cstr key ex n).keys_to_cardinalities =
      some cstr := by
  show lookupA key (st.keys_to_cardinalities ++ [(key, cstr)]) = some cstr
  rw [lookupA_append_none _ h3]
  simp [lookupA]

theorem lookupA_nGet_cstr {st : ResolverState} {cstr key : String} {ex : Nat}
    {n : Nat} (h1 : lookupA cstr st.executors = none) :
    lookupA cstr (nGetState st cstr key ex n).executors =
      some ⟨ex, (n : Int), key⟩ := by
  show lookupA cstr (st.executors ++ [(cstr, ⟨ex, (n : Int), key⟩)]) = _
  rw [lookupA_append_none _ h1]
  simp [lookupA]

theorem getStep_on_nGet {st : ResolverState} {cstr key : String} {ex : Nat}
    {f : List (String × Int) → Except AbslStatus Nat}
    {reqCards : List (String × Int)}
    (hcs : cstr = CardinalitiesToString (buildCardinalityMap reqCards))
    (h1 : lookupA cstr st.executors = none) (j : Nat) :
    getStep f reqCards (nGetState st cstr key ex (j + 1)) =
      nGetState st cstr key ex (j + 2) := by
  subst hcs
  have hc := @lookupA_nGet_cstr st
    (CardinalitiesToString (buildCardinalityMap reqCards)) key ex (j + 1) h1
  rw [getStep, getExecutor_reuse f hc]
  show ({ (nGetState st _ key ex (j + 1)) with
    executors := updateA _ _ (nGetState st _ key ex (j + 1)).executors }
      : ResolverState) = _
  unfold nGetState
  simp only [updateA_append_none _ _ h1]
  have h2 : ((j + 1 : Nat) : Int) + 1 = ((j + 2 : Nat) : Int) := by
    push_cast
    ring
  rw [h2]

theorem disposeStep_on_nGet {st : ResolverState} {cstr key : String} {ex : Nat}
    (h1 : lookupA cstr st.executors = none)
    (h3 : lookupA key st.keys_to_cardinalities = none) (j : Nat) :
    disposeStep key (nGetState st cstr key ex (j + 1)) =
      if j = 0 then { st with executor_index := st.executor_index + 1 }
      else nGetState st cstr key ex j := by
  have hkey := @lookupA_nGet_key st cstr key ex (j + 1) h3
  have hcc := @lookupA_nGet_cstr st cstr key ex (j + 1) h1
  rw [disposeStep, disposeExecutor_found hkey hcc]
  have hdec : decrementState (nGetState st cstr key ex (j + 1)) cstr =
      nGetState st cstr key ex j := by
    unfold decrementState nGetState
    simp only [updateA_append_none _ _ h1]
    have : ((j + 1 : Nat) : Int) - 1 = ((j : Nat) : Int) := by push_cast; ring
    simp [this]
  by_cases hj : j = 0
  · subst hj
    rw [if_pos (by norm_num : ((0 + 1 : Nat) : Int) - 1 = 0), if_pos rfl]
    show (DestroyExecutor key (decrementState _ _)) = _
    rw [hdec]
    have hkey0 := @lookupA_nGet_key st cstr key ex 0 h3
    unfold DestroyExecutor
    rw [hkey0]
    show ({ (nGetState st cstr key ex 0) with
      executors := eraseA cstr (nGetState st cstr key ex 0).executors
      keys_to_cardinalities :=
        eraseA key (nGetState st cstr key ex 0).keys_to_cardinalities }
        : ResolverState) = _
    unfold nGetState
    rw [eraseA_append, eraseA_append, eraseA_of_none h1, eraseA_of_none h3,
      eraseA_single_self, eraseA_single_self]
    simp
  · rw [if_neg (by
        intro hcontra
        apply hj
        have : ((j : Nat) : Int) = 0 := by push_cast at hcontra ⊢; linarith
        exact_mod_cast this), if_neg hj]
    exact hdec

theorem iterate_get_phase {st : ResolverState} {cstr : String} {ex : Nat}
    {f : List (String × Int) → Except AbslStatus Nat}
    {reqCards : List (String × Int)}
    (hcs : cstr = CardinalitiesToString (buildCardinalityMap reqCards))
    (h1 : lookupA cstr st.executors = none)
    (hf : f (buildCardinalityMap reqCards) = Except.ok ex)
    (h3 : lookupA (freshKey st cstr) st.keys_to_cardinalities = none) :
    ∀ n, iterateSt (getStep f reqCards) (n + 1) st =
      nGetState st cstr (freshKey st cstr) ex (n + 1) := by
  intro n
  induction n with
  | zero =>
      show getStep f reqCards st = _
      rw [getStep, getExecutor_new (hcs ▸ h1) hf]
      show registerState st (CardinalitiesToString (buildCardinalityMap reqCards))
        ⟨ex, 1, freshKey st (CardinalitiesToString (buildCardinalityMap reqCards))⟩ = _
      rw [← hcs]
      unfold registerState nGetState
      rw [insertA_of_none _ h3, insertA_of_none _ h1]
      norm_num
  | succ m ih =>
      rw [iterateSt_last, ih, getStep_on_nGet hcs h1 m]

theorem iterate_dispose_partial {st : ResolverState} {cstr key : String}
    {ex : Nat} (h1 : lookupA cstr st.executors = none)
    (h3 : lookupA key st.keys_to_cardinalities = none) :
    ∀ (m j : Nat), m ≤ j →
      iterateSt (disposeStep key) m (nGetState st cstr key ex (j + 1)) =
        nGetState st cstr key ex (j + 1 - m) := by
  intro m
  induction m with
  | zero =>
      intro j _
      rfl
  | succ m ih =>
      intro j hmj
      obtain ⟨j', rfl⟩ : ∃ j', j = j' + 1 :=
        ⟨j - 1, by omega⟩
      show iterateSt (disposeStep key) m
        (disposeStep key (nGetState st cstr key ex (j' + 1 + 1))) = _
      rw [disposeStep_on_nGet h1 h3 (j' + 1), if_neg (Nat.succ_ne_zero j')]
      rw [ih j' (by omega)]
      exact congrArg (nGetState st cstr key ex) (by omega)

theorem iterate_dispose_all {st : ResolverState} {cstr key : String}
    {ex : Nat} (h1 : lookupA cstr st.executors = none)
    (h3 : lookupA key st.keys_to_cardinalities = none) :
    ∀ j, iterateSt (disposeStep key) (j + 1) (nGetState st cstr key ex (j + 1)) =
      { st with executor_index := st.executor_index + 1 } := by
  intro j
  induction j with
  | zero =>
      show iterateSt (disposeStep key) 0
        (disposeStep key (nGetState st cstr key ex 1)) = _
      rw [show (1 : Nat) = 0 + 1 from rfl, disposeStep_on_nGet h1 h3 0,
        if_pos rfl]
      rfl
  | succ m ih =>
      show iterateSt (disposeStep key) (m + 1)
        (disposeStep key (nGetState st cstr key ex (m + 1 + 1))) = _
      rw [disposeStep_on_nGet h1 h3 (m + 1), if_neg (Nat.succ_ne_zero m)]
      exact ih

/-! ### Concrete registries used by the witnesses -/

/-- A registry holding one live executor for `"CLIENTS=1"`. -/
def stA : ResolverState :=
  ⟨[("CLIENTS=1", ⟨7, 1, "CLIENTS=1/svc/0"⟩)],
    [("CLIENTS=1/svc/0", "CLIENTS=1")], 1, "svc"⟩

/-- An inconsistent registry: an identifier pointing at a missing entry. -/
def stBad : ResolverState := ⟨[], [("id0", "CLIENTS=1")], 1, "svc"⟩

/-! ### Claims -/

/-- C9: in every registry state reachable from a fresh resolver by any
sequence of `ExecutorForRequirements`, `ExecutorForId`, `DisposeExecutor`,
and `DestroyExecutor` calls, every cardinality string appearing as a value in
the keys-to-cardinalities table has a matching entry in the executors table
keyed by that string. -/
theorem c9_two_table_consistency (sid : String) (ops : List ResolverOp) :
    TwoTableConsistent (runOps (initState sid) ops) :=
  (registryInv_runOps ops (registryInv_init sid)).1

/-- C5: `ExecutorForId` returns a failed-precondition class error (distinct
from not-found) when the identifier is absent from the keys table, an
internal-error class fault when the identifier maps to a cardinality string
with no entry in the executors table, and otherwise the stored entry; in all
three cases the registry state is unchanged. -/
theorem c5_for_id_classification (st : ResolverState) (ex_id method : String) :
    (lookupA ex_id st.keys_to_cardinalities = none →
      ∃ msg, ExecutorForId ex_id method st =
        (Except.error ⟨StatusCode.failedPrecondition, msg⟩, st) ∧
        StatusCode.failedPrecondition ≠ StatusCode.notFound) ∧
    (∀ cstr, lookupA ex_id st.keys_to_cardinalities = some cstr →
      lookupA cstr st.executors = none →
      ∃ msg, ExecutorForId ex_id method st =
        (Except.error ⟨StatusCode.internal, msg⟩, st)) ∧
    (∀ cstr entry, lookupA ex_id st.keys_to_cardinalities = some cstr →
      lookupA cstr st.executors = some entry →
      ExecutorForId ex_id method st = (Except.ok entry, st)) ∧
    (ExecutorForId ex_id method st).2 = st := by
  refine ⟨?_, ?_, ?_, executorForId_state ex_id method st⟩
  · intro hk
    refine ⟨"Error evaluating `ExecutorService::" ++ method ++
      "`. No executor found for ID: '" ++ ex_id ++ "'.", ?_, by decide⟩
    simp [ExecutorForId, hk]
  · intro cstr hk hc
    refine ⟨"No executor found for cardinalities string: " ++ cstr ++
      ", referred to by executor id " ++ ex_id, ?_⟩
    simp [ExecutorForId, hk, hc]
  · intro cstr entry hk hc
    exact executorForId_ok method hk hc

/-- Witness for C5: each of the three lookup outcomes at a concrete registry. -/
theorem c5_for_id_classification_witness :
    (lookupA "nope" stA.keys_to_cardinalities = none ∧
      ∃ msg, ExecutorForId "nope" "Compute" stA =
        (Except.error ⟨StatusCode.failedPrecondition, msg⟩, stA) ∧
        StatusCode.failedPrecondition ≠ StatusCode.notFound) ∧
    (lookupA "id0" stBad.keys_to_cardinalities = some "CLIENTS=1" ∧
      lookupA "CLIENTS=1" stBad.executors = none ∧
      ∃ msg, ExecutorForId "id0" "Compute" stBad =
        (Except.error ⟨StatusCode.internal, msg⟩, stBad)) ∧
    (lookupA "CLIENTS=1/svc/0" stA.keys_to_cardinalities = some "CLIENTS=1" ∧
      lookupA "CLIENTS=1" stA.executors = some ⟨7, 1, "CLIENTS=1/svc/0"⟩ ∧
      ExecutorForId "CLIENTS=1/svc/0" "CreateValue" stA =
        (Except.ok ⟨7, 1, "CLIENTS=1/svc/0"⟩, stA)) :=
  ⟨⟨by decide, (c5_for_id_classification stA "nope" "Compute").1 (by decide)⟩,
    ⟨by decide, by decide,
      (c5_for_id_classification stBad "id0" "Compute").2.1 "CLIENTS=1"
        (by decide) (by decide)⟩,
    ⟨by decide, by decide,
      (c5_for_id_classification stA "CLIENTS=1/svc/0" "CreateValue").2.2.1
        "CLIENTS=1" ⟨7, 1, "CLIENTS=1/svc/0"⟩ (by decide) (by decide)⟩⟩

/-- C7: disposal of already-gone targets succeeds without effect: for an
identifier absent from the registry `DisposeExecutor` returns success and
changes nothing, and a `Dispose` request whose executor identifier fails to
resolve returns success without issuing any dispose capability call. -/
theorem c7_gone_targets (st : ResolverState) (ex_id : String)
    (value_refs : List String) (cap : Nat → ValueId → AbslStatus) :
    (lookupA ex_id st.keys_to_cardinalities = none →
      DisposeExecutor ex_id st = (okStatus, st)) ∧
    ((∀ entry, (ExecutorForId ex_id "Dispose" st).1 ≠ Except.ok entry) →
      Dispose ex_id value_refs cap st = ⟨st, grpcOK, []⟩) := by
  constructor
  · intro h
    exact disposeExecutor_unknown h
  · intro hne
    cases hE : (ExecutorForId ex_id "Dispose" st).1 with
    | ok entry => exact absurd hE (hne entry)
    | error e => simp [Dispose, requireExecutor_error_of_fst _ _ hE]

/-- Witness for C7 at a fresh registry with an unknown identifier. -/
theorem c7_gone_targets_witness :
    (lookupA "ghost" (initState "svc").keys_to_cardinalities = none ∧
      DisposeExecutor "ghost" (initState "svc") = (okStatus, initState "svc")) ∧
    Dispose "ghost" ["0", "1"] (fun _ _ => okStatus) (initState "svc") =
      ⟨initState "svc", grpcOK, []⟩ :=
  ⟨⟨by decide,
      (c7_gone_targets (initState "svc") "ghost" ["0", "1"]
        (fun _ _ => okStatus)).1 (by decide)⟩,
    (c7_gone_targets (initState "svc") "ghost" ["0", "1"]
      (fun _ _ => okStatus)).2
      (fun entry h => by simp [ExecutorForId, lookupA, initState] at h)⟩

/-- C3: `ExecutorForRequirements` computes the canonical cardinality string
and: on an existing entry increments its refcount and returns it without
calling the factory; on factory failure returns the error with both tables
and the index unchanged; on factory success registers a new entry with
refcount 1 and a fresh identifier built from the canonical string, service
id, and monotonic index in both tables, and increments the index. -/
theorem c3_for_requirements (st : ResolverState) (req : ExecutorRequirements)
    (f : List (String × Int) → Except AbslStatus Nat) :
    (∀ e0, lookupA (CardinalitiesToString req.cardinalities) st.executors =
        some e0 →
      (ExecutorForRequirements f req st).1 =
        Except.ok { e0 with remote_refcount := e0.remote_refcount + 1 } ∧
      lookupA (CardinalitiesToString req.cardinalities)
          (ExecutorForRequirements f req st).2.executors =
        some { e0 with remote_refcount := e0.remote_refcount + 1 } ∧
      (∀ c, c ≠ CardinalitiesToString req.cardinalities →
        lookupA c (ExecutorForRequirements f req st).2.executors =
          lookupA c st.executors) ∧
      (ExecutorForRequirements f req st).2.keys_to_cardinalities =
        st.keys_to_cardinalities ∧
      (ExecutorForRequirements f req st).2.executor_index =
        st.executor_index ∧
      (∀ g, ExecutorForRequirements g req st =
        ExecutorForRequirements f req st)) ∧
    (lookupA (CardinalitiesToString req.cardinalities) st.executors = none →
      (∀ err, f req.cardinalities = Except.error err →
        ExecutorForRequirements f req st = (Except.error err, st)) ∧
      (∀ ex, f req.cardinalities = Except.ok ex →
        ExecutorForRequirements f req st =
          (Except.ok ⟨ex, 1,
              freshKey st (CardinalitiesToString req.cardinalities)⟩,
            registerState st (CardinalitiesToString req.cardinalities)
              ⟨ex, 1,
                freshKey st (CardinalitiesToString req.cardinalities)⟩) ∧
        lookupA (CardinalitiesToString req.cardinalities)
            (ExecutorForRequirements f req st).2.executors =
          some ⟨ex, 1,
            freshKey st (CardinalitiesToString req.cardinalities)⟩ ∧
        (ExecutorForRequirements f req st).2.keys_to_cardinalities =
          insertA (freshKey st (CardinalitiesToString req.cardinalities))
            (CardinalitiesToString req.cardinalities)
            st.keys_to_cardinalities ∧
        (ExecutorForRequirements f req st).2.executor_index =
          st.executor_index + 1)) := by
  constructor
  · intro e0 he0
    rw [executorForRequirements_reuse f he0]
    refine ⟨rfl, ?_, ?_, rfl, rfl, ?_⟩
    · show lookupA _ (updateA _ _ st.executors) = _
      rw [lookupA_updateA_self, he0]
      rfl
    · intro c hcne
      exact lookupA_updateA_ne _ _ hcne
    · intro g
      rw [executorForRequirements_reuse g he0]
  · intro hnone
    constructor
    · intro err herr
      exact executorForRequirements_factory_error hnone herr
    · intro ex hex
      rw [executorForRequirements_new hnone hex]
      refine ⟨rfl, ?_, rfl, rfl⟩
      show lookupA _ (insertA _ _ st.executors) = _
      exact lookupA_insertA_new _ hnone

/-- Witness for C3: reuse on an existing entry and fresh registration on an
empty registry, at concrete inputs. -/
theorem c3_for_requirements_witness :
    (lookupA (CardinalitiesToString [("CLIENTS", (1 : Int))]) stA.executors =
      some ⟨7, 1, "CLIENTS=1/svc/0"⟩ ∧
      (ExecutorForRequirements (fun _ => Except.error ⟨StatusCode.internal, "no"⟩)
          ⟨[("CLIENTS", 1)]⟩ stA).1 =
        Except.ok ⟨7, 2, "CLIENTS=1/svc/0"⟩) ∧
    (lookupA (CardinalitiesToString [("CLIENTS", (1 : Int))])
        (initState "svc").executors = none ∧
      ExecutorForRequirements (fun _ => Except.ok 9) ⟨[("CLIENTS", 1)]⟩
          (initState "svc") =
        (Except.ok ⟨9, 1, "CLIENTS=1/svc/0"⟩,
          registerState (initState "svc") "CLIENTS=1"
            ⟨9, 1, "CLIENTS=1/svc/0"⟩)) := by
  constructor
  · refine ⟨by decide, ?_⟩
    have h := (c3_for_requirements stA ⟨[("CLIENTS", 1)]⟩
      (fun _ => Except.error ⟨StatusCode.internal, "no"⟩)).1
      ⟨7, 1, "CLIENTS=1/svc/0"⟩ (by decide)
    exact h.1
  · refine ⟨by decide, ?_⟩
    have h := ((c3_for_requirements (initState "svc") ⟨[("CLIENTS", 1)]⟩
      (fun _ => Except.ok 9)).2 (by decide)).2 9 rfl
    have hkey : freshKey (initState "svc")
        (CardinalitiesToString [("CLIENTS", (1 : Int))]) =
        "CLIENTS=1/svc/0" := by decide
    have hcs : CardinalitiesToString [("CLIENTS", (1 : Int))] = "CLIENTS=1" := by
      decide
    rw [← hkey, ← hcs]
    exact h.1

/-- C10: frame property: a CreateValue, CreateCall, CreateStruct,
CreateSelection, or Compute request whose backend capability does not report a
failed-precondition error leaves the registry unchanged, and a Dispose
request leaves the registry unchanged no matter what; only GetExecutor,
DisposeExecutor, and the fault-eviction path mutate the registry. -/
theorem c10_frame (st : ResolverState)
    (ex_id function_ref source_ref value_ref : String)
    (argument_ref : Option String) (element_refs value_refs : List String)
    (index : Nat) (capV : Nat → Except AbslStatus ValueId)
    (capC : Nat → ValueId → Option ValueId → Except AbslStatus ValueId)
    (capS : Nat → List ValueId → Except AbslStatus ValueId)
    (capSel : Nat → ValueId → Nat → Except AbslStatus ValueId)
    (capM : Nat → ValueId → AbslStatus) (capD : Nat → ValueId → AbslStatus)
    (hV : ∀ x e, capV x = Except.error e →
      e.code ≠ StatusCode.failedPrecondition)
    (hC : ∀ x a b e, capC x a b = Except.error e →
      e.code ≠ StatusCode.failedPrecondition)
    (hS : ∀ x l e, capS x l = Except.error e →
      e.code ≠ StatusCode.failedPrecondition)
    (hSel : ∀ x s i e, capSel x s i = Except.error e →
      e.code ≠ StatusCode.failedPrecondition)
    (hM : ∀ x v, (capM x v).code ≠ StatusCode.failedPrecondition) :
    (CreateValue ex_id capV st).state = st ∧
    (CreateCall ex_id function_ref argument_ref capC st).state = st ∧
    (CreateStruct ex_id element_refs capS st).state = st ∧
    (CreateSelection ex_id source_ref index capSel st).state = st ∧
    (Compute ex_id value_ref capM st).state = st ∧
    (Dispose ex_id value_refs capD st).state = st :=
  ⟨createValue_state_frame hV, createCall_state_frame hC,
    createStruct_state_frame hS, createSelection_state_frame hSel,
    compute_state_frame hM, dispose_state_frame st ex_id value_refs capD⟩

/-- Witness for C10 with concrete non-failed-precondition capabilities. -/
theorem c10_frame_witness :
    (CreateValue "CLIENTS=1/svc/0" (fun _ => Except.ok 0) stA).state = stA ∧
    (CreateCall "CLIENTS=1/svc/0" "0" none (fun _ _ _ => Except.ok 1)
      stA).state = stA ∧
    (CreateStruct "CLIENTS=1/svc/0" ["0"] (fun _ _ => Except.ok 2)
      stA).state = stA ∧
    (CreateSelection "CLIENTS=1/svc/0" "0" 0 (fun _ _ _ => Except.ok 3)
      stA).state = stA ∧
    (Compute "CLIENTS=1/svc/0" "0" (fun _ _ => okStatus) stA).state = stA ∧
    (Dispose "CLIENTS=1/svc/0" ["0"] (fun _ _ =>
      ⟨StatusCode.failedPrecondition, "fault"⟩) stA).state = stA :=
  c10_frame stA "CLIENTS=1/svc/0" "0" "0" "0" none ["0"] ["0"] 0
    (fun _ => Except.ok 0) (fun _ _ _ => Except.ok 1)
    (fun _ _ => Except.ok 2) (fun _ _ _ => Except.ok 3)
    (fun _ _ => okStatus)
    (fun _ _ => ⟨StatusCode.failedPrecondition, "fault"⟩)
    (fun x e h => Except.noConfusion h)
    (fun x a b e h => Except.noConfusion h)
    (fun x l e h => Except.noConfusion h)
    (fun x s i e h => Except.noConfusion h)
    (fun x v h => StatusCode.noConfusion h)

/-- C6: for every value-producing operation, on the success path the produced
OwnedValueId is released exactly once, immediately after its id is encoded
into the wire response; on every path that errors before a value is produced
no release happens; and a value is never both released to the response and
disposed by the guard's destructor. -/
theorem c6_ownership_transfer (st : ResolverState)
    (ex_id cstr function_ref source_ref : String)
    (argument_ref : Option String) (element_refs : List String) (index : Nat)
    (entry : ExecutorEntry) (v fv sv : ValueId) (av : Option ValueId)
    (vs : List ValueId) (capV : Nat → Except AbslStatus ValueId)
    (capC : Nat → ValueId → Option ValueId → Except AbslStatus ValueId)
    (capS : Nat → List ValueId → Except AbslStatus ValueId)
    (capSel : Nat → ValueId → Nat → Except AbslStatus ValueId)
    (hk : lookupA ex_id st.keys_to_cardinalities = some cstr)
    (hc : lookupA cstr st.executors = some entry)
    (hfn : RemoteValueToId function_ref = Except.ok fv)
    (harg : decodeArgRef argument_ref = Except.ok av)
    (hels : decodeElements element_refs = Except.ok vs)
    (hsrc : RemoteValueToId source_ref = Except.ok sv) :
    ((capV entry.executor = Except.ok v →
        CreateValue ex_id capV st = ⟨st, grpcOK, some (IdToRemoteValue v),
          [VEvent.produce v, VEvent.encode v, VEvent.release v]⟩) ∧
      (capC entry.executor fv av = Except.ok v →
        CreateCall ex_id function_ref argument_ref capC st =
          ⟨st, grpcOK, some (IdToRemoteValue v),
            [VEvent.produce v, VEvent.encode v, VEvent.release v]⟩) ∧
      (capS entry.executor vs = Except.ok v →
        CreateStruct ex_id element_refs capS st =
          ⟨st, grpcOK, some (IdToRemoteValue v),
            [VEvent.produce v, VEvent.encode v, VEvent.release v]⟩) ∧
      (capSel entry.executor sv index = Except.ok v →
        CreateSelection ex_id source_ref index capSel st =
          ⟨st, grpcOK, some (IdToRemoteValue v),
            [VEvent.produce v, VEvent.encode v, VEvent.release v]⟩)) ∧
    ((∀ e, capV entry.executor = Except.error e →
        (CreateValue ex_id capV st).events = []) ∧
      (∀ e, capC entry.executor fv av = Except.error e →
        (CreateCall ex_id function_ref argument_ref capC st).events = []) ∧
      (∀ e, capS entry.executor vs = Except.error e →
        (CreateStruct ex_id element_refs capS st).events = []) ∧
      (∀ e, capSel entry.executor sv index = Except.error e →
        (CreateSelection ex_id source_ref index capSel st).events = [])) ∧
    (∀ (st' : ResolverState) (id' fnRef' srcRef' : String)
        (argRef' : Option String) (els' : List String) (idx' : Nat)
        (cV : Nat → Except AbslStatus ValueId)
        (cC : Nat → ValueId → Option ValueId → Except AbslStatus ValueId)
        (cS : Nat → List ValueId → Except AbslStatus ValueId)
        (cSel : Nat → ValueId → Nat → Except AbslStatus ValueId)
        (w : ValueId),
      VEvent.guardDispose w ∉ (CreateValue id' cV st').events ∧
      VEvent.guardDispose w ∉ (CreateCall id' fnRef' argRef' cC st').events ∧
      VEvent.guardDispose w ∉ (CreateStruct id' els' cS st').events ∧
      VEvent.guardDispose w ∉
        (CreateSelection id' srcRef' idx' cSel st').events) := by
  refine ⟨⟨?_, ?_, ?_, ?_⟩, ⟨?_, ?_, ?_, ?_⟩, ?_⟩
  · intro hcap
    exact createValue_cap_ok hk hc hcap
  · intro hcap
    exact createCall_cap_ok hk hc hfn harg hcap
  · intro hcap
    exact createStruct_cap_ok hk hc hels hcap
  · intro hcap
    exact createSelection_cap_ok hk hc hsrc hcap
  · intro e hcap
    rw [createValue_cap_error hk hc hcap]
  · intro e hcap
    rw [createCall_cap_error hk hc hfn harg hcap]
  · intro e hcap
    rw [createStruct_cap_error hk hc hels hcap]
  · intro e hcap
    rw [createSelection_cap_error hk hc hsrc hcap]
  · intro st' id' fnRef' srcRef' argRef' els' idx' cV cC cS cSel w
    exact ⟨createValue_no_guard_dispose st' id' cV w,
      createCall_no_guard_dispose st' id' fnRef' argRef' cC w,
      createStruct_no_guard_dispose st' id' els' cS w,
      createSelection_no_guard_dispose st' id' srcRef' idx' cSel w⟩

/-- Witness for C6: concrete success and failure runs against the one-entry
registry. -/
theorem c6_ownership_transfer_witness :
    (CreateValue "CLIENTS=1/svc/0" (fun _ => Except.ok 4) stA =
      ⟨stA, grpcOK, some (IdToRemoteValue 4),
        [VEvent.produce 4, VEvent.encode 4, VEvent.release 4]⟩) ∧
    (CreateValue "CLIENTS=1/svc/0"
      (fun _ => Except.error ⟨StatusCode.internal, "x"⟩) stA).events = [] ∧
    VEvent.guardDispose 4 ∉
      (CreateValue "CLIENTS=1/svc/0" (fun _ => Except.ok 4) stA).events := by
  have h := c6_ownership_transfer stA "CLIENTS=1/svc/0" "CLIENTS=1" "0" "0"
    none ["0"] 0 ⟨7, 1, "CLIENTS=1/svc/0"⟩ 4 0 0 none [0]
    (fun _ => Except.ok 4) (fun _ _ _ => Except.ok 1)
    (fun _ _ => Except.ok 2) (fun _ _ _ => Except.ok 3)
    (by decide) (by decide) (by decide) (by decide) (by decide) (by decide)
  refine ⟨h.1.1 rfl, ?_, ?_⟩
  · have h2 := c6_ownership_transfer stA "CLIENTS=1/svc/0" "CLIENTS=1" "0" "0"
      none ["0"] 0 ⟨7, 1, "CLIENTS=1/svc/0"⟩ 4 0 0 none [0]
      (fun _ => Except.error ⟨StatusCode.internal, "x"⟩)
      (fun _ _ _ => Except.ok 1) (fun _ _ => Except.ok 2)
      (fun _ _ _ => Except.ok 3)
      (by decide) (by decide) (by decide) (by decide) (by decide) (by decide)
    exact h2.2.1.1 ⟨StatusCode.internal, "x"⟩ rfl
  · exact (h.2.2 stA "CLIENTS=1/svc/0" "0" "0" none ["0"] 0
      (fun _ => Except.ok 4) (fun _ _ _ => Except.ok 1)
      (fun _ _ => Except.ok 2) (fun _ _ _ => Except.ok 3) 4).1

/-- C8: a resolved `Dispose` request processes the value references in order:
a reference that fails to decode is skipped without aborting the batch and
without being sent to the executor; the first failing dispose capability call
aborts the remaining references and its translated error is returned; if
every attempted dispose succeeds the handler returns success. -/
theorem c8_dispose_batch (st : ResolverState) (ex_id cstr : String)
    (entry : ExecutorEntry) (value_refs : List String)
    (cap : Nat → ValueId → AbslStatus)
    (hk : lookupA ex_id st.keys_to_cardinalities = some cstr)
    (hc : lookupA cstr st.executors = some entry) :
    ((∀ v ∈ decodedIds value_refs,
        (cap entry.executor v).code = StatusCode.ok) →
      Dispose ex_id value_refs cap st = ⟨st, grpcOK, decodedIds value_refs⟩) ∧
    (∀ good bad rest, decodedIds value_refs = good ++ bad :: rest →
      (∀ v ∈ good, (cap entry.executor v).code = StatusCode.ok) →
      (cap entry.executor bad).code ≠ StatusCode.ok →
      Dispose ex_id value_refs cap st =
        ⟨st, absl_to_grpc (cap entry.executor bad), good ++ [bad]⟩) := by
  constructor
  · intro hall
    rw [dispose_resolved value_refs cap hk hc, disposeLoop_all_ok hall]
  · intro good bad rest hdec hgood hbad
    rw [dispose_resolved value_refs cap hk hc,
      disposeLoop_first_fail hdec hgood hbad]

/-- Witness for C8: a batch with a malformed reference that is skipped, in
the all-succeed and the first-failure runs. -/
theorem c8_dispose_batch_witness :
    (lookupA "CLIENTS=1/svc/0" stA.keys_to_cardinalities = some "CLIENTS=1" ∧
      lookupA "CLIENTS=1" stA.executors = some ⟨7, 1, "CLIENTS=1/svc/0"⟩) ∧
    Dispose "CLIENTS=1/svc/0" ["5", "oops", "6"] (fun _ _ => okStatus) stA =
      ⟨stA, grpcOK, [5, 6]⟩ ∧
    Dispose "CLIENTS=1/svc/0" ["5", "oops", "6"]
        (fun _ v => if v = 6 then ⟨StatusCode.unavailable, "down"⟩
          else okStatus) stA =
      ⟨stA, absl_to_grpc ⟨StatusCode.unavailable, "down"⟩, [5, 6]⟩ := by
  refine ⟨⟨by decide, by decide⟩, ?_, ?_⟩
  · have h := (c8_dispose_batch stA "CLIENTS=1/svc/0" "CLIENTS=1"
      ⟨7, 1, "CLIENTS=1/svc/0"⟩ ["5", "oops", "6"] (fun _ _ => okStatus)
      (by decide) (by decide)).1 (by decide)
    rw [h]
    have : decodedIds ["5", "oops", "6"] = [5, 6] := by decide
    rw [this]
  · have h := (c8_dispose_batch stA "CLIENTS=1/svc/0" "CLIENTS=1"
      ⟨7, 1, "CLIENTS=1/svc/0"⟩ ["5", "oops", "6"]
      (fun _ v => if v = 6 then ⟨StatusCode.unavailable, "down"⟩
        else okStatus)
      (by decide) (by decide)).2 [5] 6 [] (by decide) (by decide) (by decide)
    rw [h]
    decide

/-- C1: for CreateValue, CreateCall, CreateStruct, CreateSelection, and
Compute, a capability failure of failed-precondition class makes the service
destroy the executor's registry entry before returning the translated error,
after which every `ExecutorForId` lookup on the identifier reports the
unknown-executor failed-precondition error; a capability failure of any other
class is returned translated with the registry left unchanged. -/
theorem c1_fault_eviction (st : ResolverState)
    (ex_id cstr function_ref source_ref value_ref : String)
    (argument_ref : Option String) (element_refs : List String) (index : Nat)
    (entry : ExecutorEntry) (e : AbslStatus) (fv sv rv : ValueId)
    (av : Option ValueId) (vs : List ValueId)
    (capV : Nat → Except AbslStatus ValueId)
    (capC : Nat → ValueId → Option ValueId → Except AbslStatus ValueId)
    (capS : Nat → List ValueId → Except AbslStatus ValueId)
    (capSel : Nat → ValueId → Nat → Except AbslStatus ValueId)
    (capM : Nat → ValueId → AbslStatus)
    (hk : lookupA ex_id st.keys_to_cardinalities = some cstr)
    (hc : lookupA cstr st.executors = some entry)
    (hfn : RemoteValueToId function_ref = Except.ok fv)
    (harg : decodeArgRef argument_ref = Except.ok av)
    (hels : decodeElements element_refs = Except.ok vs)
    (hsrc : RemoteValueToId source_ref = Except.ok sv)
    (hrv : RemoteValueToId value_ref = Except.ok rv)
    (hcapV : capV entry.executor = Except.error e)
    (hcapC : capC entry.executor fv av = Except.error e)
    (hcapS : capS entry.executor vs = Except.error e)
    (hcapSel : capSel entry.executor sv index = Except.error e)
    (hcapM : capM entry.executor rv = e)
    (heok : e.code ≠ StatusCode.ok) :
    (e.code = StatusCode.failedPrecondition →
      CreateValue ex_id capV st =
        ⟨DestroyExecutor ex_id st, absl_to_grpc e, none, []⟩ ∧
      CreateCall ex_id function_ref argument_ref capC st =
        ⟨DestroyExecutor ex_id st, absl_to_grpc e, none, []⟩ ∧
      CreateStruct ex_id element_refs capS st =
        ⟨DestroyExecutor ex_id st, absl_to_grpc e, none, []⟩ ∧
      CreateSelection ex_id source_ref index capSel st =
        ⟨DestroyExecutor ex_id st, absl_to_grpc e, none, []⟩ ∧
      Compute ex_id value_ref capM st =
        ⟨DestroyExecutor ex_id st, absl_to_grpc e⟩ ∧
      (∀ m, (ExecutorForId ex_id m (DestroyExecutor ex_id st)).1 =
        Except.error ⟨StatusCode.failedPrecondition,
          "Error evaluating `ExecutorService::" ++ m ++
            "`. No executor found for ID: '" ++ ex_id ++ "'."⟩)) ∧
    (e.code ≠ StatusCode.failedPrecondition →
      CreateValue ex_id capV st = ⟨st, absl_to_grpc e, none, []⟩ ∧
      CreateCall ex_id function_ref argument_ref capC st =
        ⟨st, absl_to_grpc e, none, []⟩ ∧
      CreateStruct ex_id element_refs capS st =
        ⟨st, absl_to_grpc e, none, []⟩ ∧
      CreateSelection ex_id source_ref index capSel st =
        ⟨st, absl_to_grpc e, none, []⟩ ∧
      Compute ex_id value_ref capM st = ⟨st, absl_to_grpc e⟩ ∧
      lookupA ex_id st.keys_to_cardinalities = some cstr ∧
      lookupA cstr st.executors = some entry) := by
  constructor
  · intro hfp
    refine ⟨?_, ?_, ?_, ?_, ?_, fun m => executorForId_after_destroy ex_id m st⟩
    · rw [createValue_cap_error hk hc hcapV, handleNotOK_fp hfp]
    · rw [createCall_cap_error hk hc hfn harg hcapC, handleNotOK_fp hfp]
    · rw [createStruct_cap_error hk hc hels hcapS, handleNotOK_fp hfp]
    · rw [createSelection_cap_error hk hc hsrc hcapSel, handleNotOK_fp hfp]
    · rw [compute_cap_error hk hc hrv hcapM heok, handleNotOK_fp hfp]
  · intro hnfp
    refine ⟨?_, ?_, ?_, ?_, ?_, hk, hc⟩
    · rw [createValue_cap_error hk hc hcapV, handleNotOK_other hnfp]
    · rw [createCall_cap_error hk hc hfn harg hcapC, handleNotOK_other hnfp]
    · rw [createStruct_cap_error hk hc hels hcapS, handleNotOK_other hnfp]
    · rw [createSelection_cap_error hk hc hsrc hcapSel,
        handleNotOK_other hnfp]
    · rw [compute_cap_error hk hc hrv hcapM heok, handleNotOK_other hnfp]

/-- Witness for C1: a failed-precondition capability failure and an
unavailable-class failure against the one-entry registry. -/
theorem c1_fault_eviction_witness :
    (CreateValue "CLIENTS=1/svc/0"
        (fun _ => Except.error ⟨StatusCode.failedPrecondition, "dead"⟩) stA =
      ⟨DestroyExecutor "CLIENTS=1/svc/0" stA,
        absl_to_grpc ⟨StatusCode.failedPrecondition, "dead"⟩, none, []⟩) ∧
    (CreateValue "CLIENTS=1/svc/0"
        (fun _ => Except.error ⟨StatusCode.unavailable, "busy"⟩) stA =
      ⟨stA, absl_to_grpc ⟨StatusCode.unavailable, "busy"⟩, none, []⟩) := by
  constructor
  · have h := (c1_fault_eviction stA "CLIENTS=1/svc/0" "CLIENTS=1" "0" "0"
      "0" none ["0"] 0 ⟨7, 1, "CLIENTS=1/svc/0"⟩
      ⟨StatusCode.failedPrecondition, "dead"⟩ 0 0 0 none [0]
      (fun _ => Except.error ⟨StatusCode.failedPrecondition, "dead"⟩)
      (fun _ _ _ => Except.error ⟨StatusCode.failedPrecondition, "dead"⟩)
      (fun _ _ => Except.error ⟨StatusCode.failedPrecondition, "dead"⟩)
      (fun _ _ _ => Except.error ⟨StatusCode.failedPrecondition, "dead"⟩)
      (fun _ _ => ⟨StatusCode.failedPrecondition, "dead"⟩)
      (by decide) (by decide) (by decide) (by decide) (by decide)
      (by decide) (by decide) rfl rfl rfl rfl rfl (by decide)).1 rfl
    exact h.1
  · have h := (c1_fault_eviction stA "CLIENTS=1/svc/0" "CLIENTS=1" "0" "0"
      "0" none ["0"] 0 ⟨7, 1, "CLIENTS=1/svc/0"⟩
      ⟨StatusCode.unavailable, "busy"⟩ 0 0 0 none [0]
      (fun _ => Except.error ⟨StatusCode.unavailable, "busy"⟩)
      (fun _ _ _ => Except.error ⟨StatusCode.unavailable, "busy"⟩)
      (fun _ _ => Except.error ⟨StatusCode.unavailable, "busy"⟩)
      (fun _ _ _ => Except.error ⟨StatusCode.unavailable, "busy"⟩)
      (fun _ _ => ⟨StatusCode.unavailable, "busy"⟩)
      (by decide) (by decide) (by decide) (by decide) (by decide)
      (by decide) (by decide) rfl rfl rfl rfl rfl (by decide)).2 (by decide)
    exact h.1

/-- Counterexample to C4 as stated: the value-level dispose capability call
inside the `Dispose` handler fails with a failed-precondition error, the
translated error is propagated, yet the registry is unchanged — the entry is
still resolvable, and `DestroyExecutor` (which would have changed the state)
was not applied. -/
theorem c4_counterexample :
    (Dispose "CLIENTS=1/svc/0" ["0"]
      (fun _ _ => ⟨StatusCode.failedPrecondition, "dead"⟩) stA).status =
        absl_to_grpc ⟨StatusCode.failedPrecondition, "dead"⟩ ∧
    (Dispose "CLIENTS=1/svc/0" ["0"]
      (fun _ _ => ⟨StatusCode.failedPrecondition, "dead"⟩) stA).state = stA ∧
    (ExecutorForId "CLIENTS=1/svc/0" "CreateValue"
      (Dispose "CLIENTS=1/svc/0" ["0"]
        (fun _ _ => ⟨StatusCode.failedPrecondition, "dead"⟩) stA).state).1 =
      Except.ok ⟨7, 1, "CLIENTS=1/svc/0"⟩ ∧
    DestroyExecutor "CLIENTS=1/svc/0" stA ≠ stA := by decide

/-- C4 amended: capability failures of the value-producing handlers and
Compute trigger eviction exactly when classified failed-precondition and are
otherwise propagated without eviction; the value-level dispose capability
call inside the Dispose handler, however, has its translated error returned
directly with the registry left unchanged, with no eviction even for a
failed-precondition error. -/
theorem c4_eviction_scope (st : ResolverState)
    (ex_id cstr function_ref source_ref value_ref : String)
    (argument_ref : Option String) (element_refs value_refs : List String)
    (index : Nat) (entry : ExecutorEntry) (e : AbslStatus) (fv sv rv : ValueId)
    (av : Option ValueId) (vs : List ValueId) (good rest : List ValueId)
    (bad : ValueId) (capV : Nat → Except AbslStatus ValueId)
    (capC : Nat → ValueId → Option ValueId → Except AbslStatus ValueId)
    (capS : Nat → List ValueId → Except AbslStatus ValueId)
    (capSel : Nat → ValueId → Nat → Except AbslStatus ValueId)
    (capM : Nat → ValueId → AbslStatus) (capD : Nat → ValueId → AbslStatus)
    (hk : lookupA ex_id st.keys_to_cardinalities = some cstr)
    (hc : lookupA cstr st.executors = some entry)
    (hfn : RemoteValueToId function_ref = Except.ok fv)
    (harg : decodeArgRef argument_ref = Except.ok av)
    (hels : decodeElements element_refs = Except.ok vs)
    (hsrc : RemoteValueToId source_ref = Except.ok sv)
    (hrv : RemoteValueToId value_ref = Except.ok rv)
    (hcapV : capV entry.executor = Except.error e)
    (hcapC : capC entry.executor fv av = Except.error e)
    (hcapS : capS entry.executor vs = Except.error e)
    (hcapSel : capSel entry.executor sv index = Except.error e)
    (hcapM : capM entry.executor rv = e)
    (heok : e.code ≠ StatusCode.ok)
    (hdec : decodedIds value_refs = good ++ bad :: rest)
    (hgood : ∀ v ∈ good, (capD entry.executor v).code = StatusCode.ok)
    (hbadfp : (capD entry.executor bad).code =
      StatusCode.failedPrecondition) :
    (e.code = StatusCode.failedPrecondition →
      (CreateValue ex_id capV st).state = DestroyExecutor ex_id st ∧
      (CreateCall ex_id function_ref argument_ref capC st).state =
        DestroyExecutor ex_id st ∧
      (CreateStruct ex_id element_refs capS st).state =
        DestroyExecutor ex_id st ∧
      (CreateSelection ex_id source_ref index capSel st).state =
        DestroyExecutor ex_id st ∧
      (Compute ex_id value_ref capM st).state = DestroyExecutor ex_id st) ∧
    (e.code ≠ StatusCode.failedPrecondition →
      (CreateValue ex_id capV st).state = st ∧
      (CreateCall ex_id function_ref argument_ref capC st).state = st ∧
      (CreateStruct ex_id element_refs capS st).state = st ∧
      (CreateSelection ex_id source_ref index capSel st).state = st ∧
      (Compute ex_id value_ref capM st).state = st) ∧
    (Dispose ex_id value_refs capD st =
      ⟨st, absl_to_grpc (capD entry.executor bad), good ++ [bad]⟩ ∧
      lookupA ex_id st.keys_to_cardinalities = some cstr ∧
      lookupA cstr st.executors = some entry) := by
  have hbadne : (capD entry.executor bad).code ≠ StatusCode.ok := by
    rw [hbadfp]
    decide
  refine ⟨?_, ?_, ?_, hk, hc⟩
  · intro hfp
    refine ⟨?_, ?_, ?_, ?_, ?_⟩
    · rw [createValue_cap_error hk hc hcapV, handleNotOK_fp hfp]
    · rw [createCall_cap_error hk hc hfn harg hcapC, handleNotOK_fp hfp]
    · rw [createStruct_cap_error hk hc hels hcapS, handleNotOK_fp hfp]
    · rw [createSelection_cap_error hk hc hsrc hcapSel, handleNotOK_fp hfp]
    · rw [compute_cap_error hk hc hrv hcapM heok, handleNotOK_fp hfp]
  · intro hnfp
    refine ⟨?_, ?_, ?_, ?_, ?_⟩
    · rw [createValue_cap_error hk hc hcapV, handleNotOK_other hnfp]
    · rw [createCall_cap_error hk hc hfn harg hcapC, handleNotOK_other hnfp]
    · rw [createStruct_cap_error hk hc hels hcapS, handleNotOK_other hnfp]
    · rw [createSelection_cap_error hk hc hsrc hcapSel,
        handleNotOK_other hnfp]
    · rw [compute_cap_error hk hc hrv hcapM heok, handleNotOK_other hnfp]
  · rw [dispose_resolved value_refs capD hk hc,
      disposeLoop_first_fail hdec hgood hbadne]

/-- Witness for the amended C4 at a concrete failed-precondition fault. -/
theorem c4_eviction_scope_witness :
    (CreateValue "CLIENTS=1/svc/0"
      (fun _ => Except.error ⟨StatusCode.failedPrecondition, "dead"⟩)
      stA).state = DestroyExecutor "CLIENTS=1/svc/0" stA ∧
    Dispose "CLIENTS=1/svc/0" ["0"]
      (fun _ _ => ⟨StatusCode.failedPrecondition, "dead"⟩) stA =
      ⟨stA, absl_to_grpc ⟨StatusCode.failedPrecondition, "dead"⟩, [0]⟩ := by
  have h := c4_eviction_scope stA "CLIENTS=1/svc/0" "CLIENTS=1" "0" "0" "0"
    none ["0"] ["0"] 0 ⟨7, 1, "CLIENTS=1/svc/0"⟩
    ⟨StatusCode.failedPrecondition, "dead"⟩ 0 0 0 none [0] [] [] 0
    (fun _ => Except.error ⟨StatusCode.failedPrecondition, "dead"⟩)
    (fun _ _ _ => Except.error ⟨StatusCode.failedPrecondition, "dead"⟩)
    (fun _ _ => Except.error ⟨StatusCode.failedPrecondition, "dead"⟩)
    (fun _ _ _ => Except.error ⟨StatusCode.failedPrecondition, "dead"⟩)
    (fun _ _ => ⟨StatusCode.failedPrecondition, "dead"⟩)
    (fun _ _ => ⟨StatusCode.failedPrecondition, "dead"⟩)
    (by decide) (by decide) (by decide) (by decide) (by decide) (by decide)
    (by decide) rfl rfl rfl rfl rfl (by decide) (by decide)
    (fun v hv => absurd hv (List.not_mem_nil v)) (by decide)
  exact ⟨(h.1 rfl).1, h.2.2.1⟩

/-- C2: refcount symmetry.  Starting from a registry with no entry for the
requested map's canonical string — and, as in every reachable registry, no
stale binding for the identifier about to be minted, since identifiers embed
the strictly monotonic executor index — issuing GetExecutor n times (n ≥ 1)
with that map and then DisposeExecutor m times on the returned identifier
leaves the entry present in both tables with remote refcount n - m for every
m < n, and the n-th dispose removes it from both tables. -/
theorem c2_refcount_symmetry (st : ResolverState)
    (f : List (String × Int) → Except AbslStatus Nat)
    (reqCards : List (String × Int)) (ex : Nat) (n m : Nat)
    (h1 : lookupA (CardinalitiesToString (buildCardinalityMap reqCards))
      st.executors = none)
    (hf : f (buildCardinalityMap reqCards) = Except.ok ex)
    (h3 : lookupA
      (freshKey st (CardinalitiesToString (buildCardinalityMap reqCards)))
      st.keys_to_cardinalities = none)
    (hn : 1 ≤ n) (hm : m < n) :
    (GetExecutor f reqCards st).executorId =
      some (freshKey st
        (CardinalitiesToString (buildCardinalityMap reqCards))) ∧
    (lookupA
        (freshKey st (CardinalitiesToString (buildCardinalityMap reqCards)))
        (iterateSt
          (disposeStep (freshKey st
            (CardinalitiesToString (buildCardinalityMap reqCards)))) m
          (iterateSt (getStep f reqCards) n st)).keys_to_cardinalities =
      some (CardinalitiesToString (buildCardinalityMap reqCards)) ∧
      lookupA (CardinalitiesToString (buildCardinalityMap reqCards))
        (iterateSt
          (disposeStep (freshKey st
            (CardinalitiesToString (buildCardinalityMap reqCards)))) m
          (iterateSt (getStep f reqCards) n st)).executors =
      some ⟨ex, (n : Int) - (m : Int),
        freshKey st (CardinalitiesToString (buildCardinalityMap reqCards))⟩) ∧
    (lookupA
        (freshKey st (CardinalitiesToString (buildCardinalityMap reqCards)))
        (iterateSt
          (disposeStep (freshKey st
            (CardinalitiesToString (buildCardinalityMap reqCards)))) n
          (iterateSt (getStep f reqCards) n st)).keys_to_cardinalities =
      none ∧
      lookupA (CardinalitiesToString (buildCardinalityMap reqCards))
        (iterateSt
          (disposeStep (freshKey st
            (CardinalitiesToString (buildCardinalityMap reqCards)))) n
          (iterateSt (getStep f reqCards) n st)).executors = none) := by
  obtain ⟨n', rfl⟩ : ∃ n', n = n' + 1 := ⟨n - 1, by omega⟩
  have hm' : m ≤ n' := by omega
  have hget := @iterate_get_phase st
    (CardinalitiesToString (buildCardinalityMap reqCards)) ex f reqCards rfl
    h1 hf h3
  refine ⟨?_, ?_, ?_⟩
  · rw [getExecutor_new h1 hf]
  · rw [hget n', iterate_dispose_partial h1 h3 m n' hm']
    refine ⟨lookupA_nGet_key h3, ?_⟩
    rw [lookupA_nGet_cstr h1]
    have hcast : ((n' + 1 - m : Nat) : Int) =
        ((n' + 1 : Nat) : Int) - (m : Int) := by omega
    rw [hcast]
  · rw [hget n', iterate_dispose_all h1 h3 n']
    exact ⟨h3, h1⟩

/-- Witness for C2: two GetExecutor calls then two DisposeExecutor calls on a
fresh registry, observed after one and after both disposes. -/
theorem c2_refcount_symmetry_witness :
    (GetExecutor (fun _ => Except.ok 7) [("CLIENTS", 1)]
      (initState "svc")).executorId = some "CLIENTS=1/svc/0" ∧
    lookupA "CLIENTS=1"
      (iterateSt (disposeStep "CLIENTS=1/svc/0") 1
        (iterateSt (getStep (fun _ => Except.ok 7) [("CLIENTS", 1)]) 2
          (initState "svc"))).executors =
      some ⟨7, 1, "CLIENTS=1/svc/0"⟩ ∧
    lookupA "CLIENTS=1/svc/0"
      (iterateSt (disposeStep "CLIENTS=1/svc/0") 2
        (iterateSt (getStep (fun _ => Except.ok 7) [("CLIENTS", 1)]) 2
          (initState "svc"))).keys_to_cardinalities = none := by
  have h := c2_refcount_symmetry (initState "svc") (fun _ => Except.ok 7)
    [("CLIENTS", 1)] 7 2 1 (by decide) rfl (by decide) (by decide) (by decide)
  have hcs : CardinalitiesToString
      (buildCardinalityMap [("CLIENTS", (1 : Int))]) = "CLIENTS=1" := by decide
  rw [hcs] at h
  have hkey : freshKey (initState "svc") "CLIENTS=1" = "CLIENTS=1/svc/0" := by
    decide
  rw [hkey] at h
  refine ⟨h.1, ?_, h.2.2.1⟩
  have h2 := h.2.1.2
  norm_num at h2
  exact h2

end TFF
